import Mathlib

/-
Verification development for the Raptor-Model repository
(sovereign_shield package: proof_chain.py, inevitability_gate.py,
bark.py, bio_hash.py, core.py).

Modelling conventions, used throughout:
  * Python strings that flow into hash functions are modelled by the free
    term algebra `MStr`: SHA3-256 / SHA3-512 hex digests are opaque
    constructors over their (byte-string) payload, and `htrunc n` is the
    slice `[:n]` of a digest string.  This is the standard collision-free
    idealisation of a cryptographic hash: structurally distinct digest
    terms denote distinct hex strings, and equal terms denote equal
    strings (the functions are deterministic).  `mlen` gives the length
    of the denoted string (a SHA3-256 hex digest has 64 characters, a
    SHA3-512 hex digest 128).
  * Python dict/list/str/float values are modelled by `PyVal`;
    `json.dumps(v, sort_keys=True)` is modelled by `pyCanon`, which sorts
    dictionary keys and produces an `MStr`.
  * Fallible Python code is modelled in `Except String`; the error string
    records the exception a CPython run raises (for example,
    `hashlib.sha3_256` applied to a `str` rather than `bytes` raises
    TypeError: Strings must be encoded before hashing).
  * Wall-clock readings (`time.time()`) and fresh UUIDs never influence
    any verified property; they are modelled by the constants `pyTime`
    and `pyUuid`.
  * Machine floats are modelled by `ℚ` exactly where the code only adds,
    multiplies and compares (all constants involved are exactly
    representable), and by `ℝ` where the code takes `exp`/`sqrt`
    (bio_hash.py).
-/

namespace RaptorModel

section

/- Batteries seals rational arithmetic as irreducible, which would stop
`decide`/`rfl` from evaluating the embedded code on concrete inputs;
re-open it for this development. -/
attribute [local semireducible] Rat.add Rat.sub Rat.mul Rat.inv

/-- Model of Python strings fed to and produced by the hashing layer:
`lit` is a string literal, `cat` is concatenation, `s256`/`s512` are the
hex digests of SHA3-256/SHA3-512 over the payload, and `htrunc n p` is
the slice `p[:n]` of a digest string. -/
inductive MStr where
  | lit (s : String)
  | cat (a b : MStr)
  | s256 (p : MStr)
  | s512 (p : MStr)
  | htrunc (n : Nat) (p : MStr)
  deriving DecidableEq

/-- Length of the Python string denoted by an `MStr` term: a SHA3-256 hex
digest has 64 characters and a SHA3-512 hex digest 128; `[:n]` keeps at
most `n`. -/
def mlen : MStr → Nat
  | .lit s => s.length
  | .cat a b => mlen a + mlen b
  | .s256 _ => 64
  | .s512 _ => 128
  | .htrunc n p => min n (mlen p)

/-- Python `"".join` over a list of strings. -/
def mjoin : List MStr → MStr
  | [] => .lit ("")
  | s :: rest => .cat s (mjoin rest)

/-- Model of Python values as they appear in the dicts this code hashes
and passes between stages (float/int, str, bool, None, list, dict). -/
inductive PyVal where
  | num (q : ℚ)
  | str (s : MStr)
  | bool (b : Bool)
  | none
  | list (xs : List PyVal)
  | dict (xs : List (String × PyVal))

/-- Wall clock (`time.time()`), abstracted to a constant: no verified
property depends on time. -/
def pyTime : ℚ := 0

/-- Fresh UUID (`uuid.uuid4()`), abstracted to a constant: no verified
property depends on identifier freshness. -/
def pyUuid : String := "uuid"

/-- Lexicographic order on character lists by code point. -/
def charsLeB : List Char → List Char → Bool
  | [], _ => true
  | _ :: _, [] => false
  | a :: as, b :: bs =>
      if a.toNat < b.toNat then true
      else if b.toNat < a.toNat then false
      else charsLeB as bs

/-- String order used for key sorting. -/
def strLeB (s t : String) : Bool := charsLeB s.data t.data

/-- Insert one key/value pair into a key-sorted association list. -/
def insertPair (p : String × MStr) : List (String × MStr) → List (String × MStr)
  | [] => [p]
  | q :: rest => if strLeB p.1 q.1 then p :: q :: rest else q :: insertPair p rest

/-- Sort an association list by key (models `sort_keys=True`). -/
def sortPairs : List (String × MStr) → List (String × MStr)
  | [] => []
  | p :: rest => insertPair p (sortPairs rest)

/-- Render already-serialised dict entries `"key": value` joined by
`", "` (the default separators of `json.dumps`). -/
def renderEntries : List (String × MStr) → MStr
  | [] => .lit ("")
  | [p] => .cat (.lit ("\"" ++ p.1 ++ "\": ")) p.2
  | p :: q :: rest => .cat (.cat (.lit ("\"" ++ p.1 ++ "\": ")) p.2)
      (.cat (.lit (", ")) (renderEntries (q :: rest)))

/-- Render already-serialised list items joined by `", "`. -/
def renderItems : List MStr → MStr
  | [] => .lit ("")
  | [m] => m
  | m :: m2 :: rest => .cat m (.cat (.lit (", ")) (renderItems (m2 :: rest)))

mutual

/-- Model of `json.dumps(v, sort_keys=True)`: canonical serialisation of
a `PyVal` to an `MStr`.  Dictionary keys are sorted; separators are the
`json.dumps` defaults.  Number formatting is abstracted to `toString`;
only determinism and injectivity of the serialisation matter here. -/
def pyCanon : PyVal → MStr
  | .num q => .lit (toString q)
  | .str s => .cat (.lit ("\"")) (.cat s (.lit ("\"")))
  | .bool b => .lit (if b then "true" else "false")
  | .none => .lit ("null")
  | .list xs => .cat (.lit ("[")) (.cat (renderItems (pyCanonList xs)) (.lit ("]")))
  | .dict xs =>
      .cat (.lit ("\x7b")) (.cat (renderEntries (sortPairs (pyCanonPairs xs))) (.lit ("\x7d")))

/-- Serialise each element of a list (helper of `pyCanon`). -/
def pyCanonList : List PyVal → List MStr
  | [] => []
  | v :: rest => pyCanon v :: pyCanonList rest

/-- Serialise each value of a dict (helper of `pyCanon`). -/
def pyCanonPairs : List (String × PyVal) → List (String × MStr)
  | [] => []
  | (k, v) :: rest => (k, pyCanon v) :: pyCanonPairs rest

end

/-- Python `d.get(key, default)` on a value expected to be a dict: raises
AttributeError when the receiver is not a dict. -/
def pyDictGet (v : PyVal) (key : String) (dflt : PyVal) : Except String PyVal :=
  match v with
  | .dict xs => .ok ((xs.lookup key).getD dflt)
  | _ => .error ("AttributeError: object has no attribute get")

/-- Python truthiness of a value (`if v:`). -/
def pyTruthy : PyVal → Bool
  | .num q => decide (q ≠ 0)
  | .str s => decide (s ≠ .lit (""))
  | .bool b => b
  | .none => false
  | .list xs => !xs.isEmpty
  | .dict xs => !xs.isEmpty

/-- Python `v <= 0`: defined for numbers and bools, a TypeError for
None, strings, lists and dicts. -/
def pyLeZero : PyVal → Except String Bool
  | .num q => .ok (decide (q ≤ 0))
  | .bool b => .ok (b == false)
  | .none => .error ("TypeError: <= not supported between instances of NoneType and int")
  | .str _ => .error ("TypeError: <= not supported between instances of str and int")
  | .list _ => .error ("TypeError: <= not supported between instances of list and int")
  | .dict _ => .error ("TypeError: <= not supported between instances of dict and int")

/-- Python `a * b` for a context value times a float: defined for
numbers and bools, a TypeError otherwise. -/
def pyMulNum (v : PyVal) (q : ℚ) : Except String PyVal :=
  match v with
  | .num a => .ok (.num (a * q))
  | .bool b => .ok (.num ((if b then 1 else 0) * q))
  | _ => .error ("TypeError: unsupported operand types for *")

/-- CPython `hashlib.sha3_256` applied to a `str` (no `.encode()`):
raises TypeError.  This models the call in
`RegistrationExecutor.execute` (inevitability_gate.py line 257), the one
hashing call site in the repository that omits `.encode()`. -/
def sha3_256_of_str (_ : MStr) : Except String MStr :=
  .error ("TypeError: Strings must be encoded before hashing")

-- ===========================================================================
-- proof_chain.py
-- ===========================================================================

/-- Types of proofs in the chain (`ProofType`). -/
inductive ProofType where
  | input | operation | verification | output | signature
  deriving DecidableEq

/-- Status of proof verification (`VerificationStatus`). -/
inductive VerificationStatus where
  | valid | invalid | pending | expired
  deriving DecidableEq

/-- A single step in the proof chain (`ProofStep`).  `hash_value` is the
hex digest the constructor computed; `previous_hash` is the hex string
stored as the link to the predecessor. -/
structure ProofStep where
  step_id : String
  proof_type : ProofType
  data : PyVal
  hash_value : MStr
  previous_hash : MStr
  timestamp : ℚ
  operator_signature : Option MStr

/-- Record of a deterministic execution (`ExecutionRecord`).  The Python
dataclass defines no `to_dict` method, which `create_proof_chain` calls
on it when one is supplied. -/
structure ExecutionRecord where
  record_id : String
  operation_type : String
  inputs : PyVal
  outputs : PyVal
  is_deterministic : Bool
  entropy_measure : ℚ

/-- Mathematical receipt for a deterministic operation
(`DeterministicReceipt`).  `entropy_measure` is kept as a Python value
because `generate_receipt` copies it straight out of a step's data
dict. -/
structure DeterministicReceipt where
  receipt_id : String
  operation_hash : MStr
  input_hash : MStr
  output_hash : MStr
  proof_chain : List MStr
  execution_time : ℚ
  entropy_measure : PyVal
  is_deterministic : Bool
  timestamp : ℚ

/-- Python `x == 0.0` on a dict value: true for the number zero and for
`False`, false for every other value. -/
def pyEqZero : PyVal → Bool
  | .num q => decide (q = 0)
  | .bool b => b == false
  | _ => false

/-- Receipt integrity check (`DeterministicReceipt.verify`): recompute
`sha3_256("".join(proof_chain))[:32]` and compare it with the stored
operation hash, then require the determinism flag. -/
def DeterministicReceipt.verify (r : DeterministicReceipt) : Bool :=
  let chain_data := mjoin r.proof_chain
  let expected_hash := MStr.htrunc 32 (MStr.s256 chain_data)
  (decide (r.operation_hash = expected_hash)) && r.is_deterministic

/-- Genesis link of a proof chain: the string `"0" * 64`. -/
def genesisHash : MStr := .lit (String.mk (List.replicate 64 ('0')))

/-- Build a new proof chain (`ProofChainGenerator.create_proof_chain`):
five linked steps input → operation → verification → output → signature.
Supplying an execution record raises AttributeError, because the
`ExecutionRecord` dataclass has no `to_dict` method. -/
def create_proof_chain (operation_type : String) (inputs outputs : PyVal)
    (operator_id : String) (execution_record : Option ExecutionRecord) :
    Except String (List ProofStep) := do
  let chain_id := pyUuid
  -- Step 1: Input proof
  let input_hash := MStr.s256 (pyCanon inputs)
  let input_step : ProofStep :=
    { step_id := chain_id ++ "_input", proof_type := .input,
      data := .dict [("inputs", inputs)],
      hash_value := input_hash, previous_hash := genesisHash,
      timestamp := pyTime, operator_signature := Option.none }
  -- Step 2: Operation proof
  let operation_hash := MStr.s256 (pyCanon (.dict
    [("operation_type", .str (.lit operation_type)), ("input_hash", .str input_hash)]))
  let operation_step : ProofStep :=
    { step_id := chain_id ++ "_operation", proof_type := .operation,
      data := .dict [("operation_type", .str (.lit operation_type))],
      hash_value := operation_hash, previous_hash := input_hash,
      timestamp := pyTime, operator_signature := Option.none }
  -- Step 3: Verification proof (`execution_record.to_dict()` raises)
  let recDict ← match execution_record with
    | Option.none => pure (PyVal.dict [])
    | some _ => Except.error ("AttributeError: ExecutionRecord object has no attribute to_dict")
  let verification_hash := MStr.s256 (pyCanon (.dict
    [("input_hash", .str input_hash), ("operation_hash", .str operation_hash),
     ("execution_record", recDict)]))
  let verification_step : ProofStep :=
    { step_id := chain_id ++ "_verification", proof_type := .verification,
      data := .dict
        [("is_deterministic", .bool (match execution_record with
            | some r => r.is_deterministic | Option.none => true)),
         ("entropy_measure", .num (match execution_record with
            | some r => r.entropy_measure | Option.none => 0))],
      hash_value := verification_hash, previous_hash := operation_hash,
      timestamp := pyTime, operator_signature := Option.none }
  -- Step 4: Output proof
  let output_hash := MStr.s256 (pyCanon outputs)
  let output_step : ProofStep :=
    { step_id := chain_id ++ "_output", proof_type := .output,
      data := .dict [("outputs", outputs)],
      hash_value := output_hash, previous_hash := verification_hash,
      timestamp := pyTime, operator_signature := Option.none }
  -- Step 5: Signature proof
  let signature_hash := MStr.s512 (.cat output_hash (.lit operator_id))
  let signature_step : ProofStep :=
    { step_id := chain_id ++ "_signature", proof_type := .signature,
      data := .dict [("operator_id", .str (.lit operator_id))],
      hash_value := signature_hash, previous_hash := output_hash,
      timestamp := pyTime, operator_signature := some signature_hash }
  pure [input_step, operation_step, verification_step, output_step, signature_step]

/-- Generate a receipt from a proof chain
(`ProofChainGenerator.generate_receipt`).  The operation hash is read
from `chain[-2]` (IndexError on chains shorter than two steps); the
entropy measure is read from the verification step's data dict. -/
def generate_receipt (chain : List ProofStep) (inputs outputs : PyVal)
    (execution_time : ℚ) : Except String DeterministicReceipt := do
  let input_hash := MStr.s256 (pyCanon inputs)
  let output_hash := MStr.s256 (pyCanon outputs)
  let operation_hash ← match chain.reverse with
    | _ :: second :: _ => pure second.hash_value
    | _ => Except.error ("IndexError: list index out of range")
  let proof_chain := chain.map (fun s => s.hash_value)
  let verification_step := chain.find? (fun s => s.proof_type == ProofType.verification)
  let entropy_measure ← match verification_step with
    | some s => pyDictGet s.data ("entropy_measure") (.num 0)
    | Option.none => pure (PyVal.num 0)
  let is_deterministic := pyEqZero entropy_measure
  pure { receipt_id := pyUuid, operation_hash := operation_hash,
         input_hash := input_hash, output_hash := output_hash,
         proof_chain := proof_chain, execution_time := execution_time,
         entropy_measure := entropy_measure,
         is_deterministic := is_deterministic, timestamp := pyTime }

/-- Chain integrity (`C0Verifier._verify_chain_integrity`): every step's
previous hash equals its predecessor's hash value. -/
def verify_chain_integrity : List ProofStep → Bool
  | [] => true
  | [_] => true
  | a :: b :: rest =>
      (decide (b.previous_hash = a.hash_value)) && verify_chain_integrity (b :: rest)

/-- Receipt/chain cross-consistency (`C0Verifier._verify_receipt`): the
receipt's operation hash must equal the chain's operation step hash and
its stored hash list must equal the chain's hashes exactly. -/
def verify_receipt (chain : List ProofStep) (receipt : DeterministicReceipt) : Bool :=
  match chain.find? (fun s => s.proof_type == ProofType.operation) with
  | Option.none => false
  | some operation_step =>
      (decide (receipt.operation_hash = operation_step.hash_value)) &&
      (decide (receipt.proof_chain = chain.map (fun s => s.hash_value)))

/-- Verify a proof chain against a receipt
(`C0Verifier.verify_proof_chain`): chain integrity, receipt consistency
and the zero-entropy claim must all hold for VALID; otherwise INVALID. -/
def verify_proof_chain (chain : List ProofStep) (receipt : DeterministicReceipt) :
    Bool × VerificationStatus :=
  let is_valid_chain := verify_chain_integrity chain
  let is_valid_receipt := verify_receipt chain receipt
  let is_deterministic := receipt.is_deterministic && pyEqZero receipt.entropy_measure
  let status :=
    if is_valid_chain && is_valid_receipt && is_deterministic then VerificationStatus.valid
    else if is_valid_chain && is_valid_receipt then VerificationStatus.invalid
    else VerificationStatus.invalid
  (status == VerificationStatus.valid, status)

-- ===========================================================================
-- inevitability_gate.py
-- ===========================================================================

/-- Stages of the Inevitability Gate (`GateStage`). -/
inductive GateStage where
  | registration | shadowing | challenge_window | canary_rollout | final_permit
  deriving DecidableEq

/-- The fixed stage order executed by `execute_full_gate`. -/
def STAGE_ORDER : List GateStage :=
  [.registration, .shadowing, .challenge_window, .canary_rollout, .final_permit]

/-- Status of each gate stage (`StageStatus`). -/
inductive StageStatus where
  | pending | in_progress | completed | failed | skipped
  deriving DecidableEq

/-- The per-execution context dict: `Option` encodes key presence.
`amount` is `some PyVal.none` when the key is present with value `None`,
and `execution_logic` is doubly optional for the same reason.  The keys
`intent_hash`, `shadow_result`, `challenge_result` and `canary_result`
are read by some executors but never written by the pipeline (the
pipeline writes `<stage value>_result` keys). -/
structure GateContext where
  operator_id : Option String := Option.none
  target_fixed_point : Option (List ℚ) := Option.none
  parameters : Option PyVal := Option.none
  transaction_type : Option String := Option.none
  amount : Option PyVal := Option.none
  canary_percentage : ℚ := 1 / 100
  did : Option String := Option.none
  bio_hash : Option String := Option.none
  execution_logic : Option (Option (PyVal → String → PyVal)) := Option.none
  params : Option PyVal := Option.none
  intent_hash : Option PyVal := Option.none
  shadow_result : Option PyVal := Option.none
  challenge_result : Option PyVal := Option.none
  canary_result : Option PyVal := Option.none
  registration_result : Option PyVal := Option.none
  shadowing_result : Option PyVal := Option.none
  challenge_window_result : Option PyVal := Option.none
  canary_rollout_result : Option PyVal := Option.none
  final_permit_result : Option PyVal := Option.none

/-- A stage executor: a `validate`/`execute` capability pair
(`StageExecutor`).  Exceptions a CPython run raises are `Except`
errors. -/
structure StageExecutorM where
  validate : GateContext → Except String (Bool × Option String)
  execute : GateContext → Except String (Bool × PyVal)

/-- Stage 1 validate (`RegistrationExecutor.validate`): requires
`operator_id`, `parameters` and `target_fixed_point`. -/
def registration_validate (c : GateContext) : Except String (Bool × Option String) :=
  if c.operator_id.isNone then
    .ok (false, some ("Missing required field: operator_id"))
  else if c.parameters.isNone then
    .ok (false, some ("Missing required field: parameters"))
  else if c.target_fixed_point.isNone then
    .ok (false, some ("Missing required field: target_fixed_point"))
  else .ok (true, Option.none)

/-- Stage 1 execute (`RegistrationExecutor.execute`): the source feeds
`intent_data + context["operator_id"]` — a `str`, not encoded to bytes —
to `hashlib.sha3_256`, which raises TypeError, so this executor raises
on every input.  The registration record it would build afterwards is
dead code. -/
def registration_execute (c : GateContext) : Except String (Bool × PyVal) := do
  match c.parameters, c.operator_id with
  | some ps, some oid => do
      let intent_data := pyCanon ps
      let intent_hash ← sha3_256_of_str (.cat intent_data (.lit oid))
      pure (true, .dict [("intent_hash", .str intent_hash)])
  | _, _ => Except.error ("KeyError")

/-- Stage 2 validate (`ShadowingExecutor.validate`): requires the
`execution_logic` key. -/
def shadowing_validate (c : GateContext) : Except String (Bool × Option String) :=
  if c.execution_logic.isNone then
    .ok (false, some ("Missing execution logic for shadowing"))
  else .ok (true, Option.none)

/-- Determinism check over per-host results
(`ShadowExecution.verify_determinism`): canonical serialisations of all
results must coincide with the first. -/
def shadow_verify_determinism (results : List (String × PyVal)) : Bool :=
  match results with
  | [] => false
  | first :: _ =>
      results.all (fun p => pyCanon p.2 == pyCanon first.2)

/-- Stage 2 execute (`ShadowingExecutor.execute`): run the execution
logic once per host and compare results.  A present-but-`None` logic
raises TypeError when called. -/
def shadowing_execute (num_hosts : Nat) (c : GateContext) : Except String (Bool × PyVal) := do
  match c.execution_logic with
  | Option.none => Except.error ("KeyError: execution_logic")
  | some Option.none => Except.error ("TypeError: NoneType object is not callable")
  | some (some logic) =>
      let execution_params := c.params.getD (PyVal.dict [])
      let hosts := (List.range num_hosts).map (fun i => "host_" ++ toString i)
      let results := hosts.map (fun h => (h, logic execution_params h))
      let is_deterministic := shadow_verify_determinism results
      pure (is_deterministic, .dict
        [("execution_hosts", .list (hosts.map (fun h => .str (.lit h)))),
         ("results", .dict results),
         ("is_deterministic", .bool is_deterministic),
         ("zeef_confirmed", .bool is_deterministic)])

/-- Stage 3 validate (`ChallengeExecutor.validate`): requires the
`shadow_result` key — which the pipeline never writes (it stores the
shadowing stage's result under `shadowing_result`). -/
def challenge_validate (c : GateContext) : Except String (Bool × Option String) :=
  if c.shadow_result.isNone then
    .ok (false, some ("Missing shadow execution result"))
  else .ok (true, Option.none)

/-- Stage 3 execute (`ChallengeExecutor.execute`): auto-resolve from the
shadow result's determinism flag. -/
def challenge_execute (review_time : ℚ) (c : GateContext) : Except String (Bool × PyVal) := do
  match c.shadow_result with
  | Option.none => Except.error ("KeyError: shadow_result")
  | some sr => do
      let flagged ← pyDictGet sr ("is_deterministic") (.bool false)
      let is_resolved := pyTruthy flagged
      let flagged2 ← pyDictGet sr ("is_deterministic") PyVal.none
      let resolution := if pyTruthy flagged2 then "Deterministic execution confirmed"
        else "Non-deterministic result detected"
      pure (is_resolved, .dict
        [("challenge", .dict
           [("challenger_id", .str (.lit ("SYSTEM"))),
            ("challenge_type", .str (.lit ("AUTO_VERIFICATION"))),
            ("is_resolved", .bool is_resolved),
            ("resolution", .str (.lit resolution)),
            ("timestamp", .num pyTime)]),
         ("review_time", .num review_time)])

/-- Stage 4 validate (`CanaryExecutor.validate`): the source rejects a
missing key or a value with `context["amount"] <= 0`; the comparison
itself raises TypeError for non-numeric values such as `None`. -/
def canary_validate (c : GateContext) : Except String (Bool × Option String) := do
  match c.amount with
  | Option.none => pure (false, some ("Invalid or missing amount for canary release"))
  | some v => do
      let nonpos ← pyLeZero v
      if nonpos then pure (false, some ("Invalid or missing amount for canary release"))
      else pure (true, Option.none)

/-- Stage 4 execute (`CanaryExecutor.execute`): compute the canary-sized
sub-release and check the simulated monitoring metrics against fixed
bounds. -/
def canary_execute (c : GateContext) : Except String (Bool × PyVal) := do
  match c.amount with
  | Option.none => Except.error ("KeyError: amount")
  | some total_amount => do
      let canary_percentage := c.canary_percentage
      let canary_amount ← pyMulNum total_amount canary_percentage
      let success_rate : ℚ := 99 / 100
      let latency_ms : ℚ := 226 / 5
      let error_rate : ℚ := 1 / 1000
      let memory_usage : ℚ := 45 / 100
      let is_stable := decide (success_rate > 95 / 100) && decide (error_rate < 5 / 100)
      pure (is_stable, .dict
        [("release_amount", canary_amount),
         ("release_percentage", .num (canary_percentage * 100)),
         ("is_stable", .bool is_stable),
         ("monitored_metrics", .dict
            [("success_rate", .num success_rate), ("latency_ms", .num latency_ms),
             ("error_rate", .num error_rate), ("memory_usage", .num memory_usage)]),
         ("systemic_instability_detected", .bool (!is_stable))])

/-- Stage 5 validate (`FinalPermitExecutor.validate`): requires `did`,
`bio_hash` and `operator_id`. -/
def final_permit_validate (c : GateContext) : Except String (Bool × Option String) :=
  if c.did.isNone then
    .ok (false, some ("Missing required field: did"))
  else if c.bio_hash.isNone then
    .ok (false, some ("Missing required field: bio_hash"))
  else if c.operator_id.isNone then
    .ok (false, some ("Missing required field: operator_id"))
  else .ok (true, Option.none)

/-- Stage 5 execute (`FinalPermitExecutor.execute` and
`FinalPermit.create`): digest the accumulated execution data with the
bio hash into a permit hash and a signature-like digest.  The keys
`intent_hash`, `shadow_result`, `challenge_result` and `canary_result`
it gathers are never written by the pipeline, so they default to
`None`. -/
def final_permit_execute (c : GateContext) : Except String (Bool × PyVal) := do
  match c.did, c.bio_hash, c.operator_id with
  | some did, some bio_hash, some operator_id => do
      let execution_data := PyVal.dict
        [("intent_hash", c.intent_hash.getD PyVal.none),
         ("shadow_result", c.shadow_result.getD PyVal.none),
         ("challenge_result", c.challenge_result.getD PyVal.none),
         ("canary_result", c.canary_result.getD PyVal.none),
         ("target_fixed_point", match c.target_fixed_point with
            | some v => PyVal.list (v.map PyVal.num) | Option.none => PyVal.none)]
      let signed_data := pyCanon (.dict
        [("operator_id", .str (.lit operator_id)), ("did", .str (.lit did)),
         ("execution_data", execution_data), ("timestamp", .num pyTime)])
      let permit_hash := MStr.s256 (.cat signed_data (.lit bio_hash))
      let operator_signature := MStr.s512 (.cat permit_hash (.lit bio_hash))
      pure (true, .dict
        [("operator_signature", .str operator_signature),
         ("signed_data", .str signed_data),
         ("did", .str (.lit did)),
         ("bio_hash", .str (.lit bio_hash)),
         ("timestamp", .num pyTime),
         ("permit_hash", .str permit_hash),
         ("is_approved", .bool true)])
  | _, _, _ => Except.error ("KeyError")

/-- The executor table built by `InevitabilityGate.__init__`. -/
def gate_executors (num_shadow_hosts : Nat) (auditor_review_time : ℚ) :
    GateStage → StageExecutorM
  | .registration => ⟨registration_validate, registration_execute⟩
  | .shadowing => ⟨shadowing_validate, shadowing_execute num_shadow_hosts⟩
  | .challenge_window => ⟨challenge_validate, challenge_execute auditor_review_time⟩
  | .canary_rollout => ⟨canary_validate, canary_execute⟩
  | .final_permit => ⟨final_permit_validate, final_permit_execute⟩

/-- Execution record for a gate stage (`StageExecution`). -/
structure StageExecutionRec where
  stage : GateStage
  status : StageStatus
  started_at : ℚ
  completed_at : Option ℚ
  result : Option PyVal
  error : Option String
  proof_data : Option MStr

/-- Complete execution record for the gate (`GateExecution`).  The
`stages` dict preserves insertion order, as Python dicts do.
`intent_hash` and `liquidity_released` are kept as Python values since
the source assigns them from untyped `.get` lookups. -/
structure GateExecutionRec where
  execution_id : String
  intent_hash : PyVal
  operator_id : String
  target_fixed_point : List ℚ
  stages : List (GateStage × StageExecutionRec)
  is_approved : Bool
  liquidity_released : PyVal

/-- Store a stage's result under its `<stage value>_result` context
key (`context[f"..."] = result` in `execute_stage`). -/
def setStageResult (stage : GateStage) (result : PyVal) (c : GateContext) : GateContext :=
  match stage with
  | .registration => { c with registration_result := some result }
  | .shadowing => { c with shadowing_result := some result }
  | .challenge_window => { c with challenge_window_result := some result }
  | .canary_rollout => { c with canary_rollout_result := some result }
  | .final_permit => { c with final_permit_result := some result }

/-- Read a stage's `<stage value>_result` context key. -/
def getStageResult (stage : GateStage) (c : GateContext) : Option PyVal :=
  match stage with
  | .registration => c.registration_result
  | .shadowing => c.shadowing_result
  | .challenge_window => c.challenge_window_result
  | .canary_rollout => c.canary_rollout_result
  | .final_permit => c.final_permit_result

/-- Execute one gate stage (`InevitabilityGate.execute_stage`, for the
no-`kwargs` calls made by `execute_full_gate`): validate, then execute,
record the stage outcome, store the result in the context on success,
and update the execution's intent hash after a successful
registration. -/
def execute_stage (table : GateStage → StageExecutorM) (stage : GateStage)
    (ctx : GateContext) (ex : GateExecutionRec) :
    Except String (Bool × GateContext × GateExecutionRec) :=
  match (table stage).validate ctx with
  | .error e => .error e
  | .ok (is_valid, error) =>
    if is_valid then
      match (table stage).execute ctx with
      | .error e => .error e
      | .ok (success, result) =>
        let stage_exec : StageExecutionRec :=
          { stage := stage, status := if success then .completed else .failed,
            started_at := pyTime, completed_at := some pyTime,
            result := some result, error := Option.none,
            proof_data := if pyTruthy result then some (pyCanon result) else Option.none }
        let ctx2 := if success then setStageResult stage result ctx else ctx
        let ex2 := { ex with stages := ex.stages ++ [(stage, stage_exec)] }
        if stage == GateStage.registration && success then
          match pyDictGet result ("intent_hash") (.str (.lit (""))) with
          | .error e => .error e
          | .ok ih => .ok (success, ctx2, { ex2 with intent_hash := ih })
        else .ok (success, ctx2, ex2)
    else
      let stage_exec : StageExecutionRec :=
        { stage := stage, status := .failed, started_at := pyTime,
          completed_at := Option.none, result := Option.none,
          error := error, proof_data := Option.none }
      .ok (false, ctx, { ex with stages := ex.stages ++ [(stage, stage_exec)] })

/-- Run the remaining stages in order, stopping at the first failure
(the `for stage in stages` loop of `execute_full_gate`). -/
def run_stages (table : GateStage → StageExecutorM) :
    List GateStage → GateContext → GateExecutionRec →
    Except String (Bool × GateContext × GateExecutionRec)
  | [], ctx, ex => .ok (true, ctx, ex)
  | stage :: rest, ctx, ex =>
      match execute_stage table stage ctx ex with
      | .error e => .error e
      | .ok (success, ctx2, ex2) =>
          if success then run_stages table rest ctx2 ex2
          else .ok (false, ctx2, ex2)

/-- Context built by `initiate_gate` plus the identity/logic keys that
`execute_full_gate` adds before running the stages. -/
def full_gate_context (operator_id : String) (target_fixed_point : List ℚ)
    (parameters : PyVal) (transaction_type : String) (amount : Option ℚ)
    (canary_percentage : ℚ) (did bio_hash : String)
    (execution_logic : Option (PyVal → String → PyVal)) : GateContext :=
  { operator_id := some operator_id,
    target_fixed_point := some target_fixed_point,
    parameters := some parameters,
    transaction_type := some transaction_type,
    amount := some (match amount with | some a => PyVal.num a | Option.none => PyVal.none),
    canary_percentage := canary_percentage,
    did := some did, bio_hash := some bio_hash,
    execution_logic := some execution_logic }

/-- Execute the complete gate (`InevitabilityGate.execute_full_gate`):
run the five stages in the fixed order; any failure aborts the run as
rejected; a full pass marks it approved and assigns the released amount
from the canary stage's result. -/
def execute_full_gate (table : GateStage → StageExecutorM) (operator_id : String)
    (target_fixed_point : List ℚ) (parameters : PyVal)
    (execution_logic : Option (PyVal → String → PyVal)) (transaction_type : String)
    (amount : Option ℚ) (did bio_hash : String) (canary_percentage : ℚ) :
    Except String (Bool × GateExecutionRec) :=
  let ctx0 := full_gate_context operator_id target_fixed_point parameters
    transaction_type amount canary_percentage did bio_hash execution_logic
  let ex0 : GateExecutionRec :=
    { execution_id := pyUuid, intent_hash := .str (.lit ("")),
      operator_id := operator_id, target_fixed_point := target_fixed_point,
      stages := [], is_approved := false, liquidity_released := .num 0 }
  match run_stages table STAGE_ORDER ctx0 ex0 with
  | .error e => .error e
  | .ok (success, ctx1, ex1) =>
    if success then
      let canary_result := ctx1.canary_rollout_result.getD (PyVal.dict [])
      match pyDictGet canary_result ("release_amount") (.num 0) with
      | .error e => .error e
      | .ok released =>
          .ok (true, { ex1 with is_approved := true, liquidity_released := released })
    else .ok (false, ex1)

-- ===========================================================================
-- core.py
-- ===========================================================================

/-- Status of the Sovereign Shield (`ShieldStatus`). -/
inductive ShieldStatus where
  | active | compromised | locked | maintenance | initializing
  deriving DecidableEq

/-- Status of a wealth node (`NodeStatus`). -/
inductive NodeStatus where
  | protected_ | exposed | quarantined | degraded
  deriving DecidableEq

/-- A protected wealth node (`WealthNode`). -/
structure WealthNode where
  node_id : String
  operator_id : String
  did : String
  bio_hash : String
  status : NodeStatus
  balance : ℚ
  frozen_balance : ℚ := 0

/-- Balance/status check (`WealthNode.can_transact`). -/
def WealthNode.can_transact (n : WealthNode) (amount : ℚ) : Bool :=
  let available := n.balance - n.frozen_balance
  (n.status == NodeStatus.protected_) && decide (available ≥ amount)

/-- Capital flow record (`CapitalFlowVector`).  The receipt is the
`to_dict` of a `DeterministicReceipt` once attached. -/
structure CapitalFlowVector where
  vector_id : String
  source_node_id : String
  target_node_id : String
  amount : ℚ
  status : String
  gate_execution_id : Option String := Option.none
  receipt : Option PyVal := Option.none
  executed_at : Option ℚ := Option.none

/-- Collapse threshold gate (`CollapseThreshold`). -/
structure CollapseThreshold where
  threshold_id : String
  metric_name : String
  critical_value : ℚ
  warning_value : ℚ
  current_value : ℚ := 0
  is_triggered : Bool := false
  last_checked : ℚ := pyTime

/-- Threshold check (`CollapseThreshold.check`): record the value and
trigger when it reaches the critical value.  Returns the trigger flag
and the mutated threshold. -/
def CollapseThreshold.check (t : CollapseThreshold) (value : ℚ) :
    Bool × CollapseThreshold :=
  let t2 := { t with current_value := value, last_checked := pyTime,
                     is_triggered := decide (value ≥ t.critical_value) }
  (t2.is_triggered, t2)

/-- Warning-zone check (`CollapseThreshold.is_warning`). -/
def CollapseThreshold.warning_zone (t : CollapseThreshold) (value : ℚ) : Bool :=
  decide (value ≥ t.warning_value) && decide (value < t.critical_value)

/-- Shield metrics (`ShieldMetrics`). -/
structure ShieldMetrics where
  total_nodes : Nat := 0
  protected_nodes : Nat := 0
  exposed_nodes : Nat := 0
  total_value_locked : ℚ := 0
  hrl_score : ℚ := 1
  collapse_thresholds_triggered : List String := []
  last_assessment : ℚ := pyTime

/-- The default collapse thresholds
(`SovereignShield.DEFAULT_THRESHOLDS`), stored in a dict keyed by
`threshold_id`. -/
def DEFAULT_THRESHOLDS : List (String × CollapseThreshold) :=
  [("entropy_threshold",
    { threshold_id := "entropy_threshold", metric_name := "system_entropy",
      critical_value := 1 / 2, warning_value := 3 / 10 }),
   ("violation_threshold",
    { threshold_id := "violation_threshold", metric_name := "identity_violations",
      critical_value := 5, warning_value := 2 }),
   ("latency_threshold",
    { threshold_id := "latency_threshold", metric_name := "execution_latency_ms",
      critical_value := 5000, warning_value := 2000 }),
   ("failure_threshold",
    { threshold_id := "failure_threshold", metric_name := "operation_failure_rate",
      critical_value := 1 / 10, warning_value := 5 / 100 }),
   ("liquidity_threshold",
    { threshold_id := "liquidity_threshold", metric_name := "liquidity_ratio",
      critical_value := 2 / 10, warning_value := 3 / 10 })]

/-- Orchestrator state (`SovereignShield`): registries of nodes, flows
and thresholds plus status and metrics. -/
structure ShieldState where
  status : ShieldStatus := .active
  nodes : List (String × WealthNode) := []
  capital_flows : List (String × CapitalFlowVector) := []
  collapse_thresholds : List (String × CollapseThreshold) := DEFAULT_THRESHOLDS
  metrics : ShieldMetrics := {}

/-- Metric refresh (`SovereignShield._update_metrics`). -/
def update_metrics (st : ShieldState) : ShieldState :=
  let ns := st.nodes.map (fun p => p.2)
  let total_nodes := ns.length
  let protected_nodes := (ns.filter (fun n => n.status == NodeStatus.protected_)).length
  let exposed_nodes := (ns.filter (fun n => n.status == NodeStatus.exposed)).length
  let total_value_locked := (ns.map (fun n => n.balance)).sum
  let hrl_score :=
    if total_nodes > 0 then
      ((protected_nodes : ℚ) / (total_nodes : ℚ)) * min 1 (total_value_locked / 1000000)
    else st.metrics.hrl_score
  { st with metrics := { st.metrics with
      total_nodes := total_nodes, protected_nodes := protected_nodes,
      exposed_nodes := exposed_nodes, total_value_locked := total_value_locked,
      hrl_score := hrl_score, last_assessment := pyTime } }

/-- Threshold sweep (`SovereignShield.check_collapse_thresholds`): for
each stored threshold, look its `threshold_id` up in the supplied metric
map (the `metric_name` field is not consulted), check it, and collect
triggered ids; a non-empty collection marks the shield COMPROMISED,
otherwise ACTIVE. -/
def check_collapse_thresholds (st : ShieldState) (metrics : List (String × ℚ)) :
    List String × ShieldState :=
  let step := fun (acc : List (String × CollapseThreshold) × List String)
                  (p : String × CollapseThreshold) =>
    match metrics.lookup p.1 with
    | some v =>
        let (trig, t2) := p.2.check v
        (acc.1 ++ [(p.1, t2)], if trig then acc.2 ++ [p.1] else acc.2)
    | Option.none => (acc.1 ++ [p], acc.2)
  let (newThresholds, triggered) := st.collapse_thresholds.foldl step ([], [])
  let st2 := { st with collapse_thresholds := newThresholds }
  if triggered.isEmpty then
    (triggered, { st2 with status := .active })
  else
    (triggered,
     { st2 with status := .compromised,
                metrics := { st2.metrics with collapse_thresholds_triggered := triggered } })

/-- Receipt serialisation (`DeterministicReceipt.to_dict`). -/
def DeterministicReceipt.to_dict (r : DeterministicReceipt) : PyVal :=
  .dict [("receipt_id", .str (.lit r.receipt_id)),
         ("operation_hash", .str r.operation_hash),
         ("input_hash", .str r.input_hash),
         ("output_hash", .str r.output_hash),
         ("proof_chain", .list (r.proof_chain.map PyVal.str)),
         ("execution_time", .num r.execution_time),
         ("entropy_measure", r.entropy_measure),
         ("is_deterministic", .bool r.is_deterministic),
         ("timestamp", .num r.timestamp)]

/-- Receipt generation for an executed flow
(`SovereignShield._generate_flow_receipt`): build a proof chain over the
flow parameters (no execution record) and derive a receipt from it. -/
def generate_flow_receipt (flow : CapitalFlowVector) (source_operator : String) :
    Except String DeterministicReceipt := do
  let chain ← create_proof_chain ("CAPITAL_TRANSFER")
    (.dict [("source", .str (.lit flow.source_node_id)),
            ("target", .str (.lit flow.target_node_id)),
            ("amount", .num flow.amount)])
    (.dict [("executed", .bool true),
            ("timestamp", match flow.executed_at with
              | some t => PyVal.num t | Option.none => PyVal.none)])
    source_operator Option.none
  generate_receipt chain (.dict [("amount", .num flow.amount)])
    (.dict [("status", .str (.lit ("executed")))]) 1

/-- Replace a node's record in the registry. -/
def setNode (nodes : List (String × WealthNode)) (key : String) (n : WealthNode) :
    List (String × WealthNode) :=
  nodes.map (fun p => if p.1 == key then (p.1, n) else p)

/-- Initiate a capital flow (`SovereignShield.initiate_capital_flow`)
with the shield's default gate configuration (3 shadow hosts, 300 s
review, 1 % canary): validate the nodes, check `can_transact`, record a
pending flow, run the full gate, and on approval move the balances and
attach a receipt.  Returns `(initiated, gate execution id, new state)`;
exceptions raised inside the gate propagate. -/
def initiate_capital_flow (st : ShieldState) (source_node_id target_node_id : String)
    (amount : ℚ) (execution_logic : Option (PyVal → String → PyVal)) :
    Except String (Bool × Option String × ShieldState) := do
  match st.nodes.lookup source_node_id, st.nodes.lookup target_node_id with
  | some source, some target => do
      if source.can_transact amount = false then
        pure (false, Option.none, st)
      else do
        let flow : CapitalFlowVector :=
          { vector_id := pyUuid, source_node_id := source_node_id,
            target_node_id := target_node_id, amount := amount, status := "pending" }
        let st1 := { st with capital_flows := st.capital_flows ++ [(flow.vector_id, flow)] }
        let (is_approved, execution) ← execute_full_gate (gate_executors 3 300)
          source.operator_id (List.replicate 512 1)
          (.dict [("source", .str (.lit source_node_id)),
                  ("target", .str (.lit target_node_id)),
                  ("amount", .num amount)])
          execution_logic ("CAPITAL_TRANSFER") (some amount)
          source.did source.bio_hash (1 / 100)
        let flow2 := { flow with gate_execution_id := some execution.execution_id,
                                 status := if is_approved then "approved" else "rejected" }
        if is_approved then do
          let source2 := { source with balance := source.balance - amount }
          let target2 := { target with balance := target.balance + amount }
          let flow3 := { flow2 with executed_at := some pyTime, status := "executed" }
          let receipt ← generate_flow_receipt flow3 source.operator_id
          let flow4 := { flow3 with receipt := some receipt.to_dict }
          let st2 := { st1 with
            nodes := setNode (setNode st1.nodes source_node_id source2) target_node_id target2,
            capital_flows := st1.capital_flows.map
              (fun p => if p.1 == flow.vector_id then (p.1, flow4) else p) }
          pure (true, some execution.execution_id, update_metrics st2)
        else do
          let st2 := { st1 with capital_flows := (st1.capital_flows.map
            (fun p => if p.1 == flow.vector_id then (p.1, flow2) else p)) }
          pure (false, Option.none, update_metrics st2)
  | _, _ => pure (false, Option.none, st)

-- ===========================================================================
-- bark.py
-- ===========================================================================

/-- State of fixed-point convergence (`ConvergenceState`). -/
structure ConvergenceState where
  current_iteration : Nat
  convergence_value : ℚ
  delta : ℚ
  is_converged : Bool
  fixed_point : Option (List ℚ)
  trajectory : List ℚ
  deriving DecidableEq

/-- Elementwise difference of two vectors (`np.array(a) - np.array(b)`,
on the equal-length vectors this code passes around). -/
def vecSub (a b : List ℚ) : List ℚ := List.zipWith (fun x y => x - y) a b

/-- Iteration loop of `compute_fixed_point`.  `normF` stands for the
external `np.linalg.norm`; `fuel` is the number of loop passes left,
`iter` the number already taken, `lastDelta` the delta of the previous
pass (used only by the fuel-exhausted return, which the guarded caller
reaches only after at least one pass). -/
def fpLoop (normF : List ℚ → ℚ) (f : List ℚ → List ℚ → List ℚ) (x : List ℚ)
    (tol div : ℚ) : List ℚ → ℚ → List ℚ → Nat → Nat → ConvergenceState
  | z, lastDelta, traj, iter, 0 =>
      { current_iteration := iter, convergence_value := lastDelta, delta := lastDelta,
        is_converged := false, fixed_point := some z, trajectory := traj }
  | z, _, traj, iter, fuel + 1 =>
      let z_next := f z x
      let delta := normF (vecSub z_next z)
      let traj2 := traj ++ [delta]
      if delta < tol then
        { current_iteration := iter + 1, convergence_value := delta, delta := delta,
          is_converged := true, fixed_point := some z_next, trajectory := traj2 }
      else if delta > div then
        { current_iteration := iter + 1, convergence_value := delta, delta := delta,
          is_converged := false, fixed_point := Option.none, trajectory := traj2 }
      else
        fpLoop normF f x tol div z_next delta traj2 (iter + 1) fuel

/-- Fixed-point computation
(`FixedPointConvergence.compute_fixed_point`): iterate
`z_next = f(z, x)` with `delta = norm(z_next - z)`; `delta < tol` is
terminal converged, `delta > div` terminal diverged, and exhausting the
iteration budget returns non-converged with the last `z`.  With a zero
budget the final `delta` read raises NameError. -/
def compute_fixed_point (normF : List ℚ → ℚ) (f : List ℚ → List ℚ → List ℚ)
    (operator_vector : List ℚ) (input_vector : Option (List ℚ))
    (max_iterations : Nat) (tolerance divergence_threshold : ℚ) :
    Except String ConvergenceState :=
  let x := input_vector.getD (List.replicate operator_vector.length 0)
  if max_iterations = 0 then
    .error ("NameError: name delta is not defined")
  else
    .ok (fpLoop normF f x tolerance divergence_threshold
      operator_vector 0 [normF operator_vector] 0 max_iterations)

/-- The iterate sequence `z 0 = z0`, `z (n+1) = f (z n) x`. -/
def fpIter (f : List ℚ → List ℚ → List ℚ) (x : List ℚ) (z0 : List ℚ) : Nat → List ℚ
  | 0 => z0
  | n + 1 => f (fpIter f x z0 n) x

/-- The delta sequence of the iteration. -/
def fpDelta (normF : List ℚ → ℚ) (f : List ℚ → List ℚ → List ℚ)
    (x z0 : List ℚ) (n : Nat) : ℚ :=
  normF (vecSub (fpIter f x z0 (n + 1)) (fpIter f x z0 n))

/-- Trajectory recorded after `k + 1` loop passes. -/
def fpTraj (normF : List ℚ → ℚ) (f : List ℚ → List ℚ → List ℚ)
    (x z0 : List ℚ) (k : Nat) : List ℚ :=
  normF z0 :: (List.range (k + 1)).map (fpDelta normF f x z0)

/-- One-norm of a rational vector.  On the one-dimensional vectors the
concrete convergence scenario uses it coincides with the Euclidean norm
`np.linalg.norm` computes. -/
def qnorm1 (z : List ℚ) : ℚ := (z.map (fun a => |a|)).sum

/-- A foundational axiom record (`Axiom`, after
`AxiomValidator._compute_axiom_hashes` has filled in the statement
hash). -/
structure AxiomRec where
  name : String
  statement : String
  hash_value : MStr
  weight : ℚ

/-- Statement check (`Axiom.verify`): constant-time equality of the
statement strings. -/
def AxiomRec.verify (a : AxiomRec) (statement : String) : Bool :=
  a.statement == statement

/-- Proof of axiom compliance (`AxiomProof`). -/
structure AxiomProofRec where
  axiom_name : String
  statement : String
  proof_hash : MStr
  timestamp : ℚ
  convergence_value : ℚ

/-- The default registry (`AxiomValidator.DEFAULT_AXIOMS`) with the
pre-computed statement hashes. -/
def DEFAULT_AXIOMS : List (String × AxiomRec) :=
  [("I_AM_THE_WEAPON",
    { name := "I_AM_THE_WEAPON", statement := "I AM: THE WEAPON",
      hash_value := .s256 (.lit ("I AM: THE WEAPON")), weight := 1 }),
   ("SOVEREIGNTY",
    { name := "SOVEREIGNTY", statement := "SOVEREIGNTY IS NON-NEGOTIABLE",
      hash_value := .s256 (.lit ("SOVEREIGNTY IS NON-NEGOTIABLE")), weight := 9 / 10 }),
   ("DETERMINISM",
    { name := "DETERMINISM", statement := "TRUTH IS DETERMINISTIC",
      hash_value := .s256 (.lit ("TRUTH IS DETERMINISTIC")), weight := 9 / 10 }),
   ("INTEGRITY",
    { name := "INTEGRITY", statement := "INTEGRITY IS ABSOLUTE",
      hash_value := .s256 (.lit ("INTEGRITY IS ABSOLUTE")), weight := 85 / 100 }),
   ("CONTINUOUS_AUDIT",
    { name := "CONTINUOUS_AUDIT", statement := "AUDIT IS CONTINUOUS",
      hash_value := .s256 (.lit ("AUDIT IS CONTINUOUS")), weight := 8 / 10 })]

/-- Validate one statement against a named axiom
(`AxiomValidator.validate_axiom`): unknown names raise ValueError. -/
def validate_axiom_stmt (axioms : List (String × AxiomRec))
    (statement : String) (axiom_name : String) :
    Except String (Bool × AxiomProofRec) :=
  match axioms.lookup axiom_name with
  | Option.none => .error ("ValueError: Unknown axiom: " ++ axiom_name)
  | some ax =>
      let is_valid := ax.verify statement
      let proof_hash := MStr.s256
        (.cat (.lit statement) (.cat (.lit ax.statement) (.lit (toString pyTime))))
      .ok (is_valid,
        { axiom_name := axiom_name, statement := statement, proof_hash := proof_hash,
          timestamp := pyTime, convergence_value := if is_valid then 1 else 0 })

/-- Validate all supplied statements in order
(`AxiomValidator.validate_all_axioms`). -/
def validate_all_statements (axioms : List (String × AxiomRec)) :
    List (String × String) → Except String (List (Bool × AxiomProofRec))
  | [] => .ok []
  | p :: rest =>
      match validate_axiom_stmt axioms p.2 p.1 with
      | .error e => .error e
      | .ok r =>
          match validate_all_statements axioms rest with
          | .error e => .error e
          | .ok rs => .ok (r :: rs)

/-- Detected identity violation (`IdentityViolation`); the convergence
snapshot dict is flattened into its two fields. -/
structure IdentityViolation where
  violation_id : MStr
  violation_type : String
  description : String
  detected_at : ℚ
  severity : String
  convergence_delta : ℚ
  convergence_iteration : Nat
  remediation_steps : List String

/-- Substring containment on Python strings (the `in` operator). -/
def strContains (s sub : String) : Bool :=
  s.data.tails.any (fun t => sub.data.isPrefixOf t)

/-- Remediation-step generation
(`IdentityViolationDetector._generate_remediation_steps`). -/
def generate_remediation_steps (violations : List String) : List String :=
  let steps1 :=
    if violations.any (fun v => strContains v ("Axiom")) then
      ["Recalculate Bio-Hash with fresh trajectory data",
       "Re-verify operator identity against stored DID"]
    else []
  let steps2 :=
    if violations.any (fun v => strContains v ("Convergence") || strContains v ("divergence")) then
      steps1 ++ ["Halt non-deterministic operations", "Lock liquidity gates",
                 "Initiate full system audit"]
    else steps1
  steps2 ++ ["Generate new C=0 proof chain upon remediation"]

/-- Violation detection
(`IdentityViolationDetector.detect_violation`): collect the failed-axiom
reasons, a non-convergence reason, and a potential-divergence reason
(convergence value above a tenth of the divergence threshold); build a
violation (severity CRITICAL when not converged, else HIGH) from a
non-empty collection and append it to the history; return `none` and the
unchanged history otherwise. -/
def detect_violation (axioms : List (String × AxiomRec)) (divergence_threshold : ℚ)
    (statements : List (String × String)) (operator_id : String)
    (convergence_state : ConvergenceState) (history : List IdentityViolation) :
    Except String (Option IdentityViolation × List IdentityViolation) :=
  match validate_all_statements axioms statements with
  | .error e => .error e
  | .ok results =>
  let axviol := (results.filter (fun r => r.1 == false)).map
    (fun r => "Axiom violation: " ++ r.2.axiom_name)
  let reasons2 :=
    if convergence_state.is_converged then axviol
    else axviol ++ ["Non-convergence: delta=" ++ toString convergence_state.convergence_value]
  let violations_found :=
    if convergence_state.convergence_value > divergence_threshold * (1 / 10) then
      reasons2 ++ ["Potential divergence: " ++ toString convergence_state.convergence_value]
    else reasons2
  if violations_found.isEmpty then
    .ok (Option.none, history)
  else
    let violation : IdentityViolation :=
      { violation_id := .htrunc 16 (.s256 (.lit (operator_id ++ toString pyTime))),
        violation_type := "AXIOM_VIOLATION",
        description := String.intercalate ("; ") violations_found,
        detected_at := pyTime,
        severity := if convergence_state.is_converged = false then "CRITICAL" else "HIGH",
        convergence_delta := convergence_state.delta,
        convergence_iteration := convergence_state.current_iteration,
        remediation_steps := generate_remediation_steps violations_found }
    .ok (some violation, history ++ [violation])

-- ===========================================================================
-- bio_hash.py
-- ===========================================================================

/-- Types of trajectories (`TrajectoryType`). -/
inductive TrajectoryType where
  | neural_simulation | motor_sequence | cognitive_pattern | biometric_sample
  deriving DecidableEq

/-- A single point in trajectory space (`TrajectoryPoint`).  Coordinates
and timestamps are real numbers: this module applies `exp` to them. -/
structure TrajectoryPoint where
  coordinates : List ℝ
  timestamp : ℝ
  trajectory_type : TrajectoryType

/-- Temporal decay weights
(`TrajectoryProcessor._compute_temporal_weights`): a singleton
trajectory gets weight 1; otherwise the weights
`exp(-0.1 * (t_i - t_0))` normalised by their sum.  The source indexes
`trajectory[0]`, so it is only ever called on non-empty input; the empty
case is unreachable. -/
noncomputable def compute_temporal_weights : List TrajectoryPoint → List ℝ
  | [_] => [1]
  | [] => []
  | p0 :: p1 :: rest =>
      let traj := p0 :: p1 :: rest
      let weights := traj.map (fun p => Real.exp (-(1 / 10) * (p.timestamp - p0.timestamp)))
      let total := weights.sum
      weights.map (fun w => w / total)

/-- Truncation/zero-padding of a coordinate vector to the lattice
width. -/
def padCoords (lattice_dimensions : Nat) (coords : List ℝ) : List ℝ :=
  if coords.length > lattice_dimensions then coords.take lattice_dimensions
  else coords ++ List.replicate (lattice_dimensions - coords.length) 0

/-- Elementwise sum of two equal-length real vectors (`lattice +=`). -/
def vecAddR (a b : List ℝ) : List ℝ := List.zipWith (fun x y => x + y) a b

/-- The weighted-coordinate accumulator of `process_trajectory` before
normalisation: the sum over points of
`temporal_weight * padded coordinates`, starting from the zero
vector. -/
noncomputable def latticeAccum (lattice_dimensions : Nat)
    (trajectory : List TrajectoryPoint) : List ℝ :=
  let weights := compute_temporal_weights trajectory
  (List.zip trajectory weights).foldl
    (fun acc pw => vecAddR acc ((padCoords lattice_dimensions pw.1.coordinates).map
      (fun a => pw.2 * a)))
    (List.replicate lattice_dimensions 0)

/-- The Euclidean norm `np.linalg.norm` of a real vector. -/
noncomputable def l2norm (v : List ℝ) : ℝ :=
  Real.sqrt ((v.map (fun a => a ^ 2)).sum)

/-- Trajectory projection (`TrajectoryProcessor.process_trajectory`):
reject an empty trajectory with ValueError; otherwise accumulate the
temporally weighted padded coordinates and normalise the result to the
unit sphere, skipping the division when the norm is not positive. -/
noncomputable def process_trajectory (lattice_dimensions : Nat)
    (trajectory : List TrajectoryPoint) : Except String (List ℝ) :=
  match trajectory with
  | [] => .error ("ValueError: Trajectory cannot be empty")
  | _ :: _ =>
      let lattice := latticeAccum lattice_dimensions trajectory
      let norm := l2norm lattice
      .ok (if norm > 0 then lattice.map (fun a => a / norm) else lattice)

-- ===========================================================================
-- Theorems
-- ===========================================================================

/-- Source node of the end-to-end scenario: registered with balance
5000. -/
def c1nodeA : WealthNode :=
  { node_id := "nA", operator_id := "opA", did := "did:axiom:0001",
    bio_hash := "bh-a", status := .protected_, balance := 5000 }

/-- Target node of the end-to-end scenario: registered with balance
0. -/
def c1nodeB : WealthNode :=
  { node_id := "nB", operator_id := "opB", did := "did:axiom:0002",
    bio_hash := "bh-b", status := .protected_, balance := 0 }

/-- Shield state holding the two registered entities. -/
def c1shield : ShieldState := { nodes := [("nA", c1nodeA), ("nB", c1nodeB)] }

/-- Deterministic shadow execution logic for the scenario. -/
def c1logic : PyVal → String → PyVal :=
  fun _ _ => .dict [("result", .str (.lit ("transfer-ok")))]

/-- C1: the end-to-end transfer scenario does not return
`approved=true` with balances 4900/100 — it raises.  The source can
transact (the balance check passes), but the very first gate stage,
`RegistrationExecutor.execute`, feeds an unencoded `str` to
`hashlib.sha3_256`, which raises TypeError, so `initiate_capital_flow`
propagates the exception instead of approving the transfer. -/
theorem C1_end_to_end_transfer :
    c1nodeA.can_transact 100 = true ∧
    initiate_capital_flow c1shield ("nA") ("nB") 100 (some c1logic) =
      Except.error ("TypeError: Strings must be encoded before hashing") :=
  ⟨by decide, rfl⟩

/-- Inputs dict of the concrete proof chain. -/
def c2inputs : PyVal :=
  .dict [("source", .str (.lit ("nA"))), ("target", .str (.lit ("nB"))),
         ("amount", .num 100)]

/-- Outputs dict of the concrete proof chain. -/
def c2outputs : PyVal :=
  .dict [("executed", .bool true), ("timestamp", .num 0)]

/-- The concrete proof chain (built without an execution record, as the
orchestrator does). -/
def c2chainE : Except String (List ProofStep) :=
  create_proof_chain ("CAPITAL_TRANSFER") c2inputs c2outputs ("opA") Option.none

/-- The concrete proof chain, extracted. -/
def c2chain : List ProofStep :=
  match c2chainE with
  | .ok c => c
  | .error _ => []

/-- The receipt generated from the concrete chain with the matching
inputs/outputs the orchestrator passes. -/
def c2receiptE : Except String DeterministicReceipt :=
  generate_receipt c2chain (.dict [("amount", .num 100)])
    (.dict [("status", .str (.lit ("executed")))]) 1

/-- The concrete receipt, extracted. -/
def c2receipt : DeterministicReceipt :=
  match c2receiptE with
  | .ok r => r
  | .error _ =>
    { receipt_id := "", operation_hash := .lit (""), input_hash := .lit (""),
      output_hash := .lit (""), proof_chain := [], execution_time := 0,
      entropy_measure := .num 0, is_deterministic := false, timestamp := 0 }

/-- C2: for an unmodified chain/receipt pair produced by
`create_proof_chain` and `generate_receipt`, `verify_proof_chain`
returns INVALID, not VALID.  The chain links verify and the stored hash
list matches the chain exactly, but the receipt's recorded operation
hash is `chain[-2].hash_value` — the output step's digest — so the
cross-check against the chain's operation step fails. -/
theorem C2_receipt_chain_verification :
    c2chainE = .ok c2chain ∧
    c2receiptE = .ok c2receipt ∧
    verify_chain_integrity c2chain = true ∧
    c2receipt.proof_chain = c2chain.map (fun s => s.hash_value) ∧
    c2receipt.operation_hash = (c2chain.map (fun s => s.hash_value)).getD 3 (.lit ("")) ∧
    verify_receipt c2chain c2receipt = false ∧
    verify_proof_chain c2chain c2receipt = (false, VerificationStatus.invalid) :=
  ⟨rfl, rfl, by decide, rfl, rfl, by decide, by decide⟩

/-- Fresh shield state for the threshold scenario. -/
def c3shield : ShieldState := {}

/-- First threshold sweep of the scenario: metric value 3. -/
def c3run1 : List String × ShieldState :=
  check_collapse_thresholds c3shield [("identity_violations", 3)]

/-- Second threshold sweep of the scenario: metric value 6. -/
def c3run2 : List String × ShieldState :=
  check_collapse_thresholds c3run1.2 [("identity_violations", 6)]

/-- The default violation threshold record. -/
def c3viol : CollapseThreshold :=
  { threshold_id := "violation_threshold", metric_name := "identity_violations",
    critical_value := 5, warning_value := 2 }

/-- C3: the threshold sweep is keyed by `threshold_id`, not by metric
name, so `{identity_violations: 3}` triggers nothing (as the claim
expects) but `{identity_violations: 6}` also triggers nothing and
leaves the shield ACTIVE, contradicting the claim.  The stored
violation threshold does carry metric name `identity_violations` with
warning 2 / critical 5 — 3 is in its warning zone and 6 past critical —
and a sweep keyed by the threshold id does trigger it. -/
theorem C3_threshold_scenario :
    c3run1.1 = [] ∧ c3run1.2.status = ShieldStatus.active ∧
    c3run2.1 = [] ∧ c3run2.2.status = ShieldStatus.active ∧
    DEFAULT_THRESHOLDS.lookup ("violation_threshold") = some c3viol ∧
    c3viol.warning_zone 3 = true ∧ (c3viol.check 3).1 = false ∧
    (c3viol.check 6).1 = true ∧
    (check_collapse_thresholds c3shield [("violation_threshold", 6)]).1 =
      ["violation_threshold"] :=
  ⟨rfl, rfl, rfl, rfl, rfl, rfl, rfl, rfl, rfl⟩

/-- Context whose `amount` key is missing. -/
def c9ctxMissing : GateContext := {}

/-- Context whose `amount` key is present with value `None` — exactly
what `initiate_gate` stores when `execute_full_gate` is called without
an amount. -/
def c9ctxNone : GateContext := { amount := some PyVal.none }

/-- Context whose `amount` is zero. -/
def c9ctxZero : GateContext := { amount := some (PyVal.num 0) }

/-- C9: the Canary stage's `validate` rejects a missing or non-positive
amount with a machine-readable reason, but a present-but-`None` amount
makes `context["amount"] <= 0` raise TypeError instead of returning a
rejection, contradicting the never-fatal claim. -/
theorem C9_canary_input_errors :
    canary_validate c9ctxMissing =
      .ok (false, some ("Invalid or missing amount for canary release")) ∧
    canary_validate c9ctxZero =
      .ok (false, some ("Invalid or missing amount for canary release")) ∧
    canary_validate c9ctxNone =
      Except.error ("TypeError: <= not supported between instances of NoneType and int") :=
  ⟨rfl, rfl, rfl⟩

/-- C5: every chain returned by `create_proof_chain` has exactly five
steps typed input, operation, verification, output, signature in that
order; each step's `previous_hash` equals the preceding step's
`hash_value`; and the first step's `previous_hash` is the all-zero
64-character genesis value. -/
theorem C5_chain_linkage (operation_type : String) (inputs outputs : PyVal)
    (operator_id : String) (execution_record : Option ExecutionRecord)
    (chain : List ProofStep)
    (h : create_proof_chain operation_type inputs outputs operator_id execution_record =
      .ok chain) :
    chain.length = 5 ∧
    chain.map (fun s => s.proof_type) =
      [ProofType.input, ProofType.operation, ProofType.verification,
       ProofType.output, ProofType.signature] ∧
    (∃ s1 s2 s3 s4 s5, chain = [s1, s2, s3, s4, s5] ∧
      s1.previous_hash = genesisHash ∧
      s2.previous_hash = s1.hash_value ∧
      s3.previous_hash = s2.hash_value ∧
      s4.previous_hash = s3.hash_value ∧
      s5.previous_hash = s4.hash_value) ∧
    genesisHash = .lit (String.mk (List.replicate 64 ('0'))) := by
  match execution_record with
  | some r => exact Except.noConfusion h
  | Option.none =>
      injection h with h2
      subst h2
      exact ⟨rfl, rfl, ⟨_, _, _, _, _, rfl, rfl, rfl, rfl, rfl, rfl⟩, rfl⟩

/-- Witness for C5 at the concrete chain of the transfer scenario. -/
theorem C5_chain_linkage_witness :
    (create_proof_chain ("CAPITAL_TRANSFER") c2inputs c2outputs ("opA") Option.none =
      .ok c2chain) ∧
    (c2chain.length = 5 ∧
     c2chain.map (fun s => s.proof_type) =
       [ProofType.input, ProofType.operation, ProofType.verification,
        ProofType.output, ProofType.signature] ∧
     (∃ s1 s2 s3 s4 s5, c2chain = [s1, s2, s3, s4, s5] ∧
       s1.previous_hash = genesisHash ∧
       s2.previous_hash = s1.hash_value ∧
       s3.previous_hash = s2.hash_value ∧
       s4.previous_hash = s3.hash_value ∧
       s5.previous_hash = s4.hash_value) ∧
     genesisHash = .lit (String.mk (List.replicate 64 ('0')))) :=
  ⟨rfl, C5_chain_linkage ("CAPITAL_TRANSFER") c2inputs c2outputs ("opA")
    Option.none c2chain rfl⟩

/-- C10: every receipt generated from a chain built by
`create_proof_chain` fails its own `verify()`: the stored operation
hash is a full 64-character SHA3-256 digest (copied from the chain's
next-to-last step) while the recomputed comparand is a 32-character
truncation, and strings of different lengths are never equal. -/
theorem C10_receipt_verify_false (operation_type : String) (inputs outputs : PyVal)
    (operator_id : String) (execution_record : Option ExecutionRecord)
    (chain : List ProofStep) (receipt_inputs receipt_outputs : PyVal)
    (execution_time : ℚ)
    (h : create_proof_chain operation_type inputs outputs operator_id execution_record =
      .ok chain) :
    ∃ r, generate_receipt chain receipt_inputs receipt_outputs execution_time = .ok r ∧
      DeterministicReceipt.verify r = false ∧
      mlen r.operation_hash = 64 ∧
      mlen (MStr.htrunc 32 (MStr.s256 (mjoin r.proof_chain))) = 32 := by
  match execution_record with
  | some r => exact Except.noConfusion h
  | Option.none =>
      injection h with h2
      subst h2
      exact ⟨_, rfl, rfl, rfl, rfl⟩

/-- Witness for C10 at the concrete chain of the transfer scenario. -/
theorem C10_receipt_verify_false_witness :
    (create_proof_chain ("CAPITAL_TRANSFER") c2inputs c2outputs ("opA") Option.none =
      .ok c2chain) ∧
    (∃ r, generate_receipt c2chain (.dict [("amount", .num 100)])
        (.dict [("status", .str (.lit ("executed")))]) 1 = .ok r ∧
      DeterministicReceipt.verify r = false ∧
      mlen r.operation_hash = 64 ∧
      mlen (MStr.htrunc 32 (MStr.s256 (mjoin r.proof_chain))) = 32) :=
  ⟨rfl, C10_receipt_verify_false ("CAPITAL_TRANSFER") c2inputs c2outputs ("opA")
    Option.none c2chain (.dict [("amount", .num 100)])
    (.dict [("status", .str (.lit ("executed")))]) 1 rfl⟩

/-- Field update/read agreement for per-stage context results. -/
theorem getStageResult_set (s t : GateStage) (res : PyVal) (c : GateContext) :
    getStageResult s (setStageResult t res c) =
      if s = t then some res else getStageResult s c := by
  cases s <;> cases t <;> simp [getStageResult, setStageResult]

/-- Characterisation of one `execute_stage` call that returns without an
exception: exactly one record is appended, its status reflects the
outcome, approval and released liquidity are untouched, and the context
is extended with the stage's result exactly on success. -/
theorem execute_stage_spec (table : GateStage → StageExecutorM) (stage : GateStage)
    (ctx : GateContext) (ex : GateExecutionRec) (ok : Bool) (ctx2 : GateContext)
    (ex2 : GateExecutionRec)
    (h : execute_stage table stage ctx ex = .ok (ok, ctx2, ex2)) :
    ∃ rec : StageExecutionRec,
      ex2.stages = ex.stages ++ [(stage, rec)] ∧
      rec.status = (if ok then StageStatus.completed else StageStatus.failed) ∧
      ex2.is_approved = ex.is_approved ∧
      ex2.liquidity_released = ex.liquidity_released ∧
      (ok = true → ∃ res, rec.result = some res ∧ ctx2 = setStageResult stage res ctx) ∧
      (ok = false → ctx2 = ctx) := by
  unfold execute_stage at h
  repeat' split at h
  any_goals exact Except.noConfusion h
  all_goals simp only [Except.ok.injEq, Prod.mk.injEq] at h
  all_goals obtain ⟨hok, hctx, hex⟩ := h
  all_goals subst hok
  all_goals subst hctx
  all_goals subst hex
  all_goals refine ⟨_, rfl, by simp_all, rfl, rfl, ?_, ?_⟩ <;>
    (intro hok2; first | (subst hok2; exact ⟨_, rfl, by simp_all⟩) | simp_all)

/-- Characterisation of a `run_stages` pass that returns without an
exception: the records appended follow the requested stage list in
order; approval and liquidity are untouched; context fields of stages
outside the list are untouched; a `true` outcome means every stage
completed and left its result in the context; a `false` outcome means
the last appended record failed and everything before it completed. -/
theorem run_stages_spec (table : GateStage → StageExecutorM) (ss : List GateStage) :
    ∀ (ctx : GateContext) (ex : GateExecutionRec) (ok : Bool)
      (ctx2 : GateContext) (ex2 : GateExecutionRec),
      ss.Nodup →
      run_stages table ss ctx ex = .ok (ok, ctx2, ex2) →
      ∃ news : List (GateStage × StageExecutionRec),
        ex2.stages = ex.stages ++ news ∧
        news.map Prod.fst = ss.take news.length ∧
        news.length ≤ ss.length ∧
        ex2.is_approved = ex.is_approved ∧
        ex2.liquidity_released = ex.liquidity_released ∧
        (∀ s, s ∉ ss → getStageResult s ctx2 = getStageResult s ctx) ∧
        (ok = true →
          news.length = ss.length ∧
          (∀ p ∈ news, p.2.status = StageStatus.completed) ∧
          (∀ s ∈ ss, ∃ rec res, news.lookup s = some rec ∧ rec.result = some res ∧
            getStageResult s ctx2 = some res)) ∧
        (ok = false →
          (∃ p, news.getLast? = some p ∧ p.2.status = StageStatus.failed) ∧
          (∀ p ∈ news.dropLast, p.2.status = StageStatus.completed)) := by
  induction ss with
  | nil =>
    intro ctx ex ok ctx2 ex2 hnd h
    simp only [run_stages, Except.ok.injEq, Prod.mk.injEq] at h
    obtain ⟨hok, hctx, hex⟩ := h
    subst hok; subst hctx; subst hex
    refine ⟨[], by simp, rfl, by simp, rfl, rfl, fun s _ => rfl, ?_, ?_⟩
    · intro _
      exact ⟨rfl, by simp, by simp⟩
    · intro hc
      exact absurd hc (by simp)
  | cons stage rest ih =>
    intro ctx ex ok ctx2 ex2 hnd h
    rw [run_stages] at h
    cases hes : execute_stage table stage ctx ex with
    | error e =>
      rw [hes] at h
      exact Except.noConfusion h
    | ok tr =>
      obtain ⟨succ, ctxm, exm⟩ := tr
      rw [hes] at h
      dsimp only at h
      obtain ⟨rec0, hst0, hstat0, happ0, hliq0, hsucc0, hfail0⟩ :=
        execute_stage_spec table stage ctx ex succ ctxm exm hes
      have hnotin : stage ∉ rest := (List.nodup_cons.mp hnd).1
      have hndrest : rest.Nodup := (List.nodup_cons.mp hnd).2
      cases succ with
      | true =>
        rw [if_pos rfl] at h
        obtain ⟨res0, hres0, hctxm⟩ := hsucc0 rfl
        obtain ⟨news, hst, hmap, hlen, happ, hliq, hpres, htrue, hfalse⟩ :=
          ih ctxm exm ok ctx2 ex2 hndrest h
        refine ⟨(stage, rec0) :: news, ?_, ?_, ?_, ?_, ?_, ?_, ?_, ?_⟩
        · rw [hst, hst0]
          simp
        · simpa using hmap
        · simpa using Nat.succ_le_succ hlen
        · rw [happ, happ0]
        · rw [hliq, hliq0]
        · intro s hs
          have hs1 : s ≠ stage := fun heq => hs (by simp [heq])
          have hs2 : s ∉ rest := fun hmem => hs (by simp [hmem])
          rw [hpres s hs2, hctxm, getStageResult_set]
          simp [hs1]
        · intro hok
          obtain ⟨hlen2, hcomp, hlink⟩ := htrue hok
          refine ⟨by simp [hlen2], ?_, ?_⟩
          · intro p hp
            rcases List.mem_cons.mp hp with hp1 | hp2
            · subst hp1
              simpa using hstat0
            · exact hcomp p hp2
          · intro s hs
            rcases List.mem_cons.mp hs with hseq | hsrest
            · subst hseq
              refine ⟨rec0, res0, ?_, hres0, ?_⟩
              · simp [List.lookup]
              · rw [hpres s hnotin, hctxm, getStageResult_set]
                simp
            · obtain ⟨rec, res, hlook, hres, hget⟩ := hlink s hsrest
              have hne : s ≠ stage := fun heq => hnotin (heq ▸ hsrest)
              refine ⟨rec, res, ?_, hres, hget⟩
              rw [List.lookup]
              rw [show (s == stage) = false by simpa using hne]
              exact hlook
        · intro hok
          obtain ⟨⟨p, hplast, hpfail⟩, hdrop⟩ := hfalse hok
          have hnews : news ≠ [] := by
            intro hnil
            rw [hnil] at hplast
            exact Option.noConfusion hplast
          obtain ⟨q, qs, hq⟩ := List.exists_cons_of_ne_nil hnews
          subst hq
          refine ⟨⟨p, ?_, hpfail⟩, ?_⟩
          · simpa using hplast
          · intro r hr
            rw [List.dropLast_cons₂] at hr
            rcases List.mem_cons.mp hr with hr1 | hr2
            · subst hr1
              simpa using hstat0
            · exact hdrop r hr2
      | false =>
        rw [if_neg (by simp)] at h
        simp only [Except.ok.injEq, Prod.mk.injEq] at h
        obtain ⟨hok, hctx, hex⟩ := h
        subst hok; subst hctx; subst hex
        have hctxid := hfail0 rfl
        refine ⟨[(stage, rec0)], by simpa using hst0, by simp, by simp,
          happ0, hliq0, ?_, ?_, ?_⟩
        · intro s _
          rw [hctxid]
        · intro hc
          exact absurd hc (by simp)
        · intro _
          exact ⟨⟨(stage, rec0), rfl, by simpa using hstat0⟩, by simp⟩

/-- C4: gate monotonicity.  In every full gate run that returns, the
stage records follow the fixed order Registration, Shadowing,
Challenge, Canary, Final-Permit as a prefix; a failed stage is the last
record, everything before it completed, and the run ends unapproved
with zero liquidity; only a run whose five stages all complete is
approved, and its released amount is read from the canary stage's
result. -/
theorem C4_gate_monotonicity (table : GateStage → StageExecutorM)
    (operator_id : String) (target_fixed_point : List ℚ) (parameters : PyVal)
    (execution_logic : Option (PyVal → String → PyVal)) (transaction_type : String)
    (amount : Option ℚ) (did bio_hash : String) (canary_percentage : ℚ)
    (approved : Bool) (ex : GateExecutionRec)
    (h : execute_full_gate table operator_id target_fixed_point parameters
      execution_logic transaction_type amount did bio_hash canary_percentage =
      .ok (approved, ex)) :
    ex.is_approved = approved ∧
    ex.stages.map Prod.fst = STAGE_ORDER.take ex.stages.length ∧
    ex.stages.length ≤ 5 ∧
    (approved = false →
      ex.liquidity_released = PyVal.num 0 ∧
      (∃ p, ex.stages.getLast? = some p ∧ p.2.status = StageStatus.failed) ∧
      (∀ p ∈ ex.stages.dropLast, p.2.status = StageStatus.completed)) ∧
    (approved = true →
      ex.stages.map Prod.fst = STAGE_ORDER ∧
      (∀ p ∈ ex.stages, p.2.status = StageStatus.completed) ∧
      (∃ rec res, ex.stages.lookup GateStage.canary_rollout = some rec ∧
        rec.result = some res ∧
        pyDictGet res ("release_amount") (PyVal.num 0) = .ok ex.liquidity_released)) := by
  unfold execute_full_gate at h
  dsimp only at h
  split at h
  · exact Except.noConfusion h
  · rename_i success ctx1 ex1 heq
    have hnd : STAGE_ORDER.Nodup := by decide
    obtain ⟨news, hst, hmap, hlen, happ, hliq, hpres, htrue, hfalse⟩ :=
      run_stages_spec table STAGE_ORDER _ _ success ctx1 ex1 hnd heq
    simp only [List.nil_append] at hst
    cases success with
    | false =>
      simp only [Bool.false_eq_true, if_false, Except.ok.injEq, Prod.mk.injEq] at h
      obtain ⟨hap, hex⟩ := h
      subst hap
      subst hex
      obtain ⟨hlast, hdrop⟩ := hfalse rfl
      refine ⟨happ, by rw [hst, ← hmap], by rw [hst]; simpa [STAGE_ORDER] using hlen, ?_, ?_⟩
      · intro _
        rw [hst]
        exact ⟨hliq, hlast, hdrop⟩
      · intro hc
        exact absurd hc (by simp)
    | true =>
      rw [if_pos rfl] at h
      split at h
      · exact Except.noConfusion h
      · rename_i released hrel
        simp only [Except.ok.injEq, Prod.mk.injEq] at h
        obtain ⟨hap, hex⟩ := h
        subst hap
        subst hex
        obtain ⟨hlen5, hcomp, hlink⟩ := htrue rfl
        obtain ⟨rec, res, hlook, hres, hget⟩ :=
          hlink GateStage.canary_rollout (by decide)
        have hcan : ctx1.canary_rollout_result = some res := hget
        rw [hcan] at hrel
        refine ⟨rfl, ?_, ?_, ?_, ?_⟩
        · dsimp only
          rw [hst]
          exact hmap
        · dsimp only
          rw [hst, hlen5]
          simp [STAGE_ORDER]
        · intro hc
          exact absurd hc (by simp)
        · intro _
          refine ⟨?_, ?_, rec, res, ?_, hres, ?_⟩
          · dsimp only
            rw [hst, hmap, hlen5]
            exact List.take_length STAGE_ORDER
          · intro p hp
            dsimp only at hp
            rw [hst] at hp
            exact hcomp p hp
          · dsimp only
            rw [hst]
            exact hlook
          · dsimp only
            simpa using hrel

/-- An always-succeeding executor table used to exercise the approved
path of the gate contract. -/
def trivial_executor : StageExecutorM :=
  { validate := fun _ => .ok (true, Option.none),
    execute := fun _ => .ok (true, PyVal.dict [("release_amount", PyVal.num 7)]) }

/-- A concrete full-gate run over the trivial executor table. -/
def c4run : Except String (Bool × GateExecutionRec) :=
  execute_full_gate (fun _ => trivial_executor) ("op") [] (PyVal.dict [])
    Option.none ("T") (some 100) ("d") ("b") (1 / 100)

/-- The gate execution record of that run. -/
def c4exec : GateExecutionRec :=
  match c4run with
  | .ok (_, e) => e
  | .error _ =>
    { execution_id := "", intent_hash := .num 0, operator_id := "",
      target_fixed_point := [], stages := [], is_approved := false,
      liquidity_released := .num 0 }

/-- Witness for C4: the trivial table's run returns approved, and the
contract holds of its execution record. -/
theorem C4_gate_monotonicity_witness :
    (execute_full_gate (fun _ => trivial_executor) ("op") [] (PyVal.dict [])
      Option.none ("T") (some 100) ("d") ("b") (1 / 100) = .ok (true, c4exec)) ∧
    (c4exec.is_approved = true ∧
     c4exec.stages.map Prod.fst = STAGE_ORDER.take c4exec.stages.length ∧
     c4exec.stages.length ≤ 5 ∧
     (true = false →
       c4exec.liquidity_released = PyVal.num 0 ∧
       (∃ p, c4exec.stages.getLast? = some p ∧ p.2.status = StageStatus.failed) ∧
       (∀ p ∈ c4exec.stages.dropLast, p.2.status = StageStatus.completed)) ∧
     (true = true →
       c4exec.stages.map Prod.fst = STAGE_ORDER ∧
       (∀ p ∈ c4exec.stages, p.2.status = StageStatus.completed) ∧
       (∃ rec res, c4exec.stages.lookup GateStage.canary_rollout = some rec ∧
         rec.result = some res ∧
         pyDictGet res ("release_amount") (PyVal.num 0) =
           .ok c4exec.liquidity_released))) :=
  ⟨rfl, C4_gate_monotonicity (fun _ => trivial_executor) ("op") [] (PyVal.dict [])
    Option.none ("T") (some 100) ("d") ("b") (1 / 100) true c4exec rfl⟩

/-- Restarting the iterate sequence after one step shifts its index. -/
theorem fpIter_shift (f : List ℚ → List ℚ → List ℚ) (x z : List ℚ) (n : Nat) :
    fpIter f x (f z x) n = fpIter f x z (n + 1) := by
  induction n with
  | zero => rfl
  | succ n ih =>
      rw [fpIter, ih]
      rfl

/-- Restarting the delta sequence after one step shifts its index. -/
theorem fpDelta_shift (normF : List ℚ → ℚ) (f : List ℚ → List ℚ → List ℚ)
    (x z : List ℚ) (j : Nat) :
    fpDelta normF f x (f z x) j = fpDelta normF f x z (j + 1) := by
  unfold fpDelta
  rw [fpIter_shift, fpIter_shift]

/-- Trajectory bookkeeping: appending the first delta and then the
shifted deltas equals appending all deltas. -/
theorem fpTraj_step (normF : List ℚ → ℚ) (f : List ℚ → List ℚ → List ℚ)
    (x z : List ℚ) (traj : List ℚ) (n : Nat) :
    (traj ++ [fpDelta normF f x z 0]) ++
      (List.range n).map (fpDelta normF f x (f z x)) =
    traj ++ (List.range (n + 1)).map (fpDelta normF f x z) := by
  rw [List.range_succ_eq_map, List.map_cons, List.append_assoc, List.map_map,
    List.singleton_append]
  congr 2
  apply List.map_congr_left
  intro j _
  exact fpDelta_shift normF f x z j

/-- Characterisation of the iteration loop: the first clause settles the
pass at which a terminal condition first holds (converged or diverged),
the second the fuel-exhausted return. -/
theorem fpLoop_spec (normF : List ℚ → ℚ) (f : List ℚ → List ℚ → List ℚ) (x : List ℚ)
    (tol div : ℚ) :
    ∀ (fuel : Nat) (z : List ℚ) (ld : ℚ) (traj : List ℚ) (iter : Nat),
      (∀ k, k < fuel →
        (∀ j, j < k → tol ≤ fpDelta normF f x z j ∧ fpDelta normF f x z j ≤ div) →
        (fpDelta normF f x z k < tol →
          fpLoop normF f x tol div z ld traj iter fuel =
            { current_iteration := iter + k + 1,
              convergence_value := fpDelta normF f x z k,
              delta := fpDelta normF f x z k, is_converged := true,
              fixed_point := some (fpIter f x z (k + 1)),
              trajectory := traj ++ (List.range (k + 1)).map (fpDelta normF f x z) }) ∧
        (tol ≤ fpDelta normF f x z k → div < fpDelta normF f x z k →
          fpLoop normF f x tol div z ld traj iter fuel =
            { current_iteration := iter + k + 1,
              convergence_value := fpDelta normF f x z k,
              delta := fpDelta normF f x z k, is_converged := false,
              fixed_point := Option.none,
              trajectory := traj ++ (List.range (k + 1)).map (fpDelta normF f x z) })) ∧
      ((∀ j, j < fuel → tol ≤ fpDelta normF f x z j ∧ fpDelta normF f x z j ≤ div) →
        fpLoop normF f x tol div z ld traj iter fuel =
          { current_iteration := iter + fuel,
            convergence_value := if fuel = 0 then ld else fpDelta normF f x z (fuel - 1),
            delta := if fuel = 0 then ld else fpDelta normF f x z (fuel - 1),
            is_converged := false,
            fixed_point := some (fpIter f x z fuel),
            trajectory := traj ++ (List.range fuel).map (fpDelta normF f x z) }) := by
  intro fuel
  induction fuel with
  | zero =>
    intro z ld traj iter
    refine ⟨fun k hk => absurd hk (Nat.not_lt_zero k), fun _ => ?_⟩
    simp [fpLoop, fpIter]
  | succ m ih =>
    intro z ld traj iter
    have hd0 : fpDelta normF f x z 0 = normF (vecSub (f z x) z) := rfl
    by_cases h1 : fpDelta normF f x z 0 < tol
    · have hloop : fpLoop normF f x tol div z ld traj iter (m + 1) =
          { current_iteration := iter + 1,
            convergence_value := fpDelta normF f x z 0,
            delta := fpDelta normF f x z 0, is_converged := true,
            fixed_point := some (fpIter f x z 1),
            trajectory := traj ++ [fpDelta normF f x z 0] } := by
        rw [fpLoop, if_pos (hd0 ▸ h1)]
        rfl
      refine ⟨?_, ?_⟩
      · intro k hk hpre
        match k with
        | 0 =>
          refine ⟨fun _ => ?_, fun ha _ => absurd h1 (not_lt.mpr ha)⟩
          rw [hloop]
          simp [List.range_succ]
        | k' + 1 =>
          have := (hpre 0 (Nat.succ_pos k')).1
          exact ⟨fun _ => absurd h1 (not_lt.mpr this),
                 fun _ _ => absurd h1 (not_lt.mpr this)⟩
      · intro hall
        exact absurd h1 (not_lt.mpr (hall 0 (Nat.succ_pos m)).1)
    · by_cases h2 : div < fpDelta normF f x z 0
      · have hloop : fpLoop normF f x tol div z ld traj iter (m + 1) =
            { current_iteration := iter + 1,
              convergence_value := fpDelta normF f x z 0,
              delta := fpDelta normF f x z 0, is_converged := false,
              fixed_point := Option.none,
              trajectory := traj ++ [fpDelta normF f x z 0] } := by
          rw [fpLoop, if_neg (hd0 ▸ h1), if_pos (hd0 ▸ h2)]
          rfl
        refine ⟨?_, ?_⟩
        · intro k hk hpre
          match k with
          | 0 =>
            refine ⟨fun hc => absurd hc h1, fun _ _ => ?_⟩
            rw [hloop]
            simp [List.range_succ]
          | k' + 1 =>
            have := (hpre 0 (Nat.succ_pos k')).2
            exact ⟨fun _ => absurd h2 (not_lt.mpr this),
                   fun _ _ => absurd h2 (not_lt.mpr this)⟩
        · intro hall
          exact absurd h2 (not_lt.mpr (hall 0 (Nat.succ_pos m)).2)
      · have hcont : fpLoop normF f x tol div z ld traj iter (m + 1) =
            fpLoop normF f x tol div (f z x) (fpDelta normF f x z 0)
              (traj ++ [fpDelta normF f x z 0]) (iter + 1) m := by
          rw [fpLoop, if_neg (hd0 ▸ h1), if_neg (hd0 ▸ h2), hd0]
        have IH := ih (f z x) (fpDelta normF f x z 0)
          (traj ++ [fpDelta normF f x z 0]) (iter + 1)
        refine ⟨?_, ?_⟩
        · intro k hk hpre
          match k with
          | 0 =>
            exact ⟨fun hc => absurd hc h1, fun _ hb => absurd hb h2⟩
          | k' + 1 =>
            have hpre2 : ∀ j, j < k' →
                tol ≤ fpDelta normF f x (f z x) j ∧ fpDelta normF f x (f z x) j ≤ div := by
              intro j hj
              rw [fpDelta_shift]
              exact hpre (j + 1) (Nat.succ_lt_succ hj)
            obtain ⟨IH1, IH2⟩ := IH.1 k' (Nat.lt_of_succ_lt_succ hk) hpre2
            constructor
            · intro hc
              rw [hcont, IH1 (by rw [fpDelta_shift]; exact hc)]
              simp only [ConvergenceState.mk.injEq, fpDelta_shift, fpIter_shift,
                fpTraj_step]
              refine ⟨by omega, ?_, ?_, ?_, ?_, ?_⟩ <;> trivial
            · intro ha hb
              rw [hcont, IH2 (by rw [fpDelta_shift]; exact ha)
                (by rw [fpDelta_shift]; exact hb)]
              simp only [ConvergenceState.mk.injEq, fpDelta_shift, fpIter_shift,
                fpTraj_step]
              refine ⟨by omega, ?_, ?_, ?_, ?_, ?_⟩ <;> trivial
        · intro hall
          have hall2 : ∀ j, j < m →
              tol ≤ fpDelta normF f x (f z x) j ∧ fpDelta normF f x (f z x) j ≤ div := by
            intro j hj
            rw [fpDelta_shift]
            exact hall (j + 1) (Nat.succ_lt_succ hj)
          rw [hcont, IH.2 hall2]
          simp only [ConvergenceState.mk.injEq, fpIter_shift, fpTraj_step,
            Nat.succ_ne_zero, if_false, Nat.succ_sub_one]
          refine ⟨by omega, ?_, ?_, ?_, ?_, ?_⟩ <;>
            first
              | trivial
              | (cases m with
                 | zero => simp
                 | succ m2 => simp [fpDelta_shift, Nat.succ_sub_one])

/-- The contracting map `f(z, x) = 0.5 * z` of the convergence
scenario. -/
def c6half : List ℚ → List ℚ → List ℚ := fun z _ => z.map (fun a => a * (1 / 2))

/-- The scenario run: default parameters (1000 iterations, tolerance
1e-10, divergence threshold 1e6) from `z0 = [1.0]`.  On these
one-dimensional vectors `qnorm1` is the Euclidean norm, and the binary
arithmetic is exact in both floats and rationals. -/
def c6res : Except String ConvergenceState :=
  compute_fixed_point qnorm1 c6half [1] Option.none 1000 (1 / 10 ^ 10) 1000000

/-- The convergence state of the scenario run. -/
def c6st : ConvergenceState :=
  match c6res with
  | .ok st => st
  | .error _ =>
    { current_iteration := 0, convergence_value := 0, delta := 0,
      is_converged := false, fixed_point := Option.none, trajectory := [] }

/-- C6: the fixed-point iteration contract.  With `ds` the delta
sequence of the iterates: the first pass at which `ds k < tol` returns a
converged state carrying `z_{k+1}`; the first pass at which
`ds k > div` returns a non-converged state with no fixed point;
exhausting the budget returns a non-converged state carrying the last
iterate.  For the contracting map `0.5 * z` from `[1]`, the run
converges at iteration 34 of the 1000 allowed, to a point within
tolerance of the zero vector. -/
theorem C6_fixed_point_iteration (normF : List ℚ → ℚ)
    (f : List ℚ → List ℚ → List ℚ) (z0 : List ℚ) (input_vector : Option (List ℚ))
    (N : Nat) (tol div : ℚ) (xv : List ℚ) (hN : 0 < N)
    (hx : xv = input_vector.getD (List.replicate z0.length 0)) :
    (∀ k, k < N →
      (∀ j, j < k → tol ≤ fpDelta normF f xv z0 j ∧ fpDelta normF f xv z0 j ≤ div) →
      (fpDelta normF f xv z0 k < tol →
        compute_fixed_point normF f z0 input_vector N tol div = .ok
          { current_iteration := k + 1,
            convergence_value := fpDelta normF f xv z0 k,
            delta := fpDelta normF f xv z0 k, is_converged := true,
            fixed_point := some (fpIter f xv z0 (k + 1)),
            trajectory := fpTraj normF f xv z0 k }) ∧
      (tol ≤ fpDelta normF f xv z0 k → div < fpDelta normF f xv z0 k →
        compute_fixed_point normF f z0 input_vector N tol div = .ok
          { current_iteration := k + 1,
            convergence_value := fpDelta normF f xv z0 k,
            delta := fpDelta normF f xv z0 k, is_converged := false,
            fixed_point := Option.none,
            trajectory := fpTraj normF f xv z0 k })) ∧
    ((∀ j, j < N → tol ≤ fpDelta normF f xv z0 j ∧ fpDelta normF f xv z0 j ≤ div) →
      compute_fixed_point normF f z0 input_vector N tol div = .ok
        { current_iteration := N,
          convergence_value := fpDelta normF f xv z0 (N - 1),
          delta := fpDelta normF f xv z0 (N - 1), is_converged := false,
          fixed_point := some (fpIter f xv z0 N),
          trajectory := fpTraj normF f xv z0 (N - 1) }) ∧
    (c6res = .ok c6st ∧ c6st.is_converged = true ∧ c6st.current_iteration = 34 ∧
      c6st.current_iteration ≤ 1000 ∧ c6st.fixed_point = some [(1 : ℚ) / 2 ^ 34] ∧
      qnorm1 [(1 : ℚ) / 2 ^ 34] < 1 / 10 ^ 10) := by
  subst hx
  have heq : compute_fixed_point normF f z0 input_vector N tol div =
      .ok (fpLoop normF f (input_vector.getD (List.replicate z0.length 0)) tol div
        z0 0 [normF z0] 0 N) := by
    unfold compute_fixed_point
    rw [if_neg (Nat.pos_iff_ne_zero.mp hN)]
  have hspec := fpLoop_spec normF f (input_vector.getD (List.replicate z0.length 0))
    tol div N z0 0 [normF z0] 0
  refine ⟨?_, ?_, ?_⟩
  · intro k hk hpre
    obtain ⟨hconv, hdivg⟩ := hspec.1 k hk hpre
    constructor
    · intro hc
      rw [heq, hconv hc]
      simp [fpTraj]
    · intro ha hb
      rw [heq, hdivg ha hb]
      simp [fpTraj]
  · intro hall
    rw [heq, hspec.2 hall]
    have hN1 : N - 1 + 1 = N := Nat.succ_pred_eq_of_pos hN
    simp [ConvergenceState.mk.injEq, fpTraj, hN1, Nat.pos_iff_ne_zero.mp hN]
  · exact ⟨rfl, rfl, rfl, by decide, rfl, by decide⟩

/-- Witness for C6 at the identity map from the zero vector with one
allowed iteration: the first pass converges immediately. -/
theorem C6_fixed_point_iteration_witness :
    (0 < 1) ∧
    compute_fixed_point qnorm1 (fun z _ => z) [0] Option.none 1 1 10 = .ok
      { current_iteration := 1, convergence_value := 0, delta := 0,
        is_converged := true, fixed_point := some [0], trajectory := [0, 0] } :=
  ⟨by decide,
   ((C6_fixed_point_iteration qnorm1 (fun z _ => z) [0] Option.none 1 1 10
      (List.replicate 1 0) (by decide) rfl).1 0 (by decide)
      (fun j hj => absurd hj (by omega))).1 (by decide)⟩

/-- With every statement name known to the registry,
`validate_all_statements` succeeds, and some result is marked invalid
exactly when some statement differs from its named axiom. -/
theorem validate_all_statements_ok (axioms : List (String × AxiomRec)) :
    ∀ statements : List (String × String),
      (∀ p ∈ statements, (axioms.lookup p.1).isSome) →
      ∃ rs, validate_all_statements axioms statements = .ok rs ∧
        ((∃ r ∈ rs, r.1 = false) ↔
          (∃ p ∈ statements, ∃ ax, axioms.lookup p.1 = some ax ∧ ax.statement ≠ p.2))
  | [], _ => ⟨[], rfl, by simp⟩
  | p :: rest, hknown => by
    obtain ⟨ax, hax⟩ := Option.isSome_iff_exists.mp (hknown p (List.mem_cons_self p rest))
    obtain ⟨rs, hrs, hiff⟩ := validate_all_statements_ok axioms rest
      (fun q hq => hknown q (List.mem_cons_of_mem p hq))
    refine ⟨(ax.verify p.2,
      { axiom_name := p.1, statement := p.2,
        proof_hash := MStr.s256
          (.cat (.lit p.2) (.cat (.lit ax.statement) (.lit (toString pyTime)))),
        timestamp := pyTime,
        convergence_value := if ax.verify p.2 then 1 else 0 }) :: rs, ?_, ?_⟩
    · rw [validate_all_statements]
      unfold validate_axiom_stmt
      rw [hax, hrs]
    · constructor
      · intro hex
        obtain ⟨r, hr, hrfalse⟩ := hex
        rcases List.mem_cons.mp hr with hr1 | hr2
        · refine ⟨p, List.mem_cons_self p rest, ax, hax, ?_⟩
          rw [hr1] at hrfalse
          simpa [AxiomRec.verify] using hrfalse
        · obtain ⟨q, hq, ax2, hax2, hne⟩ := hiff.mp ⟨r, hr2, hrfalse⟩
          exact ⟨q, List.mem_cons_of_mem p hq, ax2, hax2, hne⟩
      · intro hex
        obtain ⟨q, hq, ax2, hax2, hne⟩ := hex
        rcases List.mem_cons.mp hq with hq1 | hq2
        · subst hq1
          rw [hax] at hax2
          injection hax2 with hax2
          subst hax2
          exact ⟨_, List.mem_cons_self _ rs, by simpa [AxiomRec.verify] using hne⟩
        · obtain ⟨r, hr, hrfalse⟩ := hiff.mpr ⟨q, hq2, ax2, hax2, hne⟩
          exact ⟨r, List.mem_cons_of_mem _ hr, hrfalse⟩

/-- C8: violation detection.  With every statement name known to the
registry (unknown names raise ValueError) and the state's
convergence-value/delta fields in agreement (as every state built by
`compute_fixed_point` has them), `detect_violation` returns a violation
exactly when a statement fails its named axiom's exact string match, or
the state is not converged, or the delta exceeds a tenth of the
divergence threshold; its severity is CRITICAL exactly when not
converged, HIGH otherwise; a detected violation is appended to the
history and otherwise the history is unchanged. -/
theorem C8_detect_violation (axioms : List (String × AxiomRec)) (divT : ℚ)
    (statements : List (String × String)) (operator_id : String)
    (st : ConvergenceState) (history : List IdentityViolation)
    (hknown : ∀ p ∈ statements, (axioms.lookup p.1).isSome)
    (hcv : st.convergence_value = st.delta) :
    ∃ res hist2,
      detect_violation axioms divT statements operator_id st history = .ok (res, hist2) ∧
      (res.isSome = true ↔
        ((∃ p ∈ statements, ∃ ax, axioms.lookup p.1 = some ax ∧ ax.statement ≠ p.2) ∨
          st.is_converged = false ∨ st.delta > divT * (1 / 10))) ∧
      (∀ v, res = some v →
        v.severity = (if st.is_converged then "HIGH" else "CRITICAL") ∧
        hist2 = history ++ [v]) ∧
      (res = Option.none → hist2 = history) := by
  obtain ⟨rs, hrs, hiff⟩ := validate_all_statements_ok axioms statements hknown
  unfold detect_violation
  rw [hrs]
  dsimp only
  by_cases hconv : st.is_converged = true
  · rw [if_pos hconv]
    by_cases hdiv : st.convergence_value > divT * (1 / 10)
    · rw [if_pos hdiv]
      rw [show ((rs.filter (fun r => r.1 == false)).map
          (fun r => "Axiom violation: " ++ r.2.axiom_name) ++
          ["Potential divergence: " ++ toString st.convergence_value]).isEmpty = false
        from by simp]
      simp only [Bool.false_eq_true, if_false]
      refine ⟨_, _, rfl, ?_, ?_, ?_⟩
      · exact iff_of_true rfl (Or.inr (Or.inr (hcv ▸ hdiv)))
      · intro v hv
        injection hv with hv
        subst hv
        exact ⟨by simp [hconv], rfl⟩
      · intro hc
        exact Option.noConfusion hc
    · rw [if_neg hdiv]
      cases hE : ((rs.filter (fun r => r.1 == false)).map
          (fun r => "Axiom violation: " ++ r.2.axiom_name)).isEmpty with
      | true =>
        rw [if_pos rfl]
        refine ⟨Option.none, history, rfl, ?_, ?_, fun _ => rfl⟩
        · refine iff_of_false (by simp) ?_
          intro hor
          rcases hor with ha | hb | hc
          · obtain ⟨r, hr, hrf⟩ := hiff.mpr ha
            have : r ∈ rs.filter (fun r => r.1 == false) :=
              List.mem_filter.mpr ⟨hr, by simp [hrf]⟩
            have hmem : ("Axiom violation: " ++ r.2.axiom_name) ∈
                ((rs.filter (fun r => r.1 == false)).map
                  (fun r => "Axiom violation: " ++ r.2.axiom_name)) :=
              List.mem_map_of_mem _ this
            rw [List.isEmpty_iff] at hE
            rw [hE] at hmem
            exact absurd hmem (List.not_mem_nil _)
          · rw [hconv] at hb
            exact Bool.noConfusion hb
          · exact hdiv (hcv ▸ hc)
        · intro v hv
          exact Option.noConfusion hv
      | false =>
        rw [if_neg (by simp)]
        refine ⟨_, _, rfl, ?_, ?_, ?_⟩
        · refine iff_of_true rfl (Or.inl ?_)
          have hne : ((rs.filter (fun r => r.1 == false)).map
              (fun r => "Axiom violation: " ++ r.2.axiom_name)) ≠ [] := by
            intro h0
            rw [h0] at hE
            exact Bool.noConfusion hE
          obtain ⟨x, hx⟩ := List.exists_mem_of_ne_nil _ hne
          obtain ⟨r, hrmem, _⟩ := List.mem_map.mp hx
          obtain ⟨hrs2, hrf⟩ := List.mem_filter.mp hrmem
          exact hiff.mp ⟨r, hrs2, by simpa using hrf⟩
        · intro v hv
          injection hv with hv
          subst hv
          exact ⟨by simp [hconv], rfl⟩
        · intro hc
          exact Option.noConfusion hc
  · rw [if_neg hconv]
    have hconvf : st.is_converged = false := by
      simpa using hconv
    by_cases hdiv : st.convergence_value > divT * (1 / 10)
    · rw [if_pos hdiv]
      rw [show (((rs.filter (fun r => r.1 == false)).map
          (fun r => "Axiom violation: " ++ r.2.axiom_name) ++
          ["Non-convergence: delta=" ++ toString st.convergence_value]) ++
          ["Potential divergence: " ++ toString st.convergence_value]).isEmpty = false
        from by simp]
      simp only [Bool.false_eq_true, if_false]
      refine ⟨_, _, rfl, ?_, ?_, ?_⟩
      · exact iff_of_true rfl (Or.inr (Or.inl hconvf))
      · intro v hv
        injection hv with hv
        subst hv
        exact ⟨by simp [hconvf], rfl⟩
      · intro hc
        exact Option.noConfusion hc
    · rw [if_neg hdiv]
      rw [show ((rs.filter (fun r => r.1 == false)).map
          (fun r => "Axiom violation: " ++ r.2.axiom_name) ++
          ["Non-convergence: delta=" ++ toString st.convergence_value]).isEmpty = false
        from by simp]
      simp only [Bool.false_eq_true, if_false]
      refine ⟨_, _, rfl, ?_, ?_, ?_⟩
      · exact iff_of_true rfl (Or.inr (Or.inl hconvf))
      · intro v hv
        injection hv with hv
        subst hv
        exact ⟨by simp [hconvf], rfl⟩
      · intro hc
        exact Option.noConfusion hc

/-- Witness for C8: a correct SOVEREIGNTY statement with a converged
zero-delta state detects nothing and leaves the history empty. -/
theorem C8_detect_violation_witness :
    (∀ p ∈ [("SOVEREIGNTY", "SOVEREIGNTY IS NON-NEGOTIABLE")],
      (DEFAULT_AXIOMS.lookup p.1).isSome) ∧
    (∃ res hist2,
      detect_violation DEFAULT_AXIOMS 1000000
        [("SOVEREIGNTY", "SOVEREIGNTY IS NON-NEGOTIABLE")] ("opA")
        { current_iteration := 3, convergence_value := 0, delta := 0,
          is_converged := true, fixed_point := some [0], trajectory := [] }
        [] = .ok (res, hist2) ∧
      (res.isSome = true ↔
        ((∃ p ∈ [("SOVEREIGNTY", "SOVEREIGNTY IS NON-NEGOTIABLE")],
            ∃ ax, DEFAULT_AXIOMS.lookup p.1 = some ax ∧ ax.statement ≠ p.2) ∨
          ({ current_iteration := 3, convergence_value := 0, delta := 0,
             is_converged := true, fixed_point := some [0],
             trajectory := [] } : ConvergenceState).is_converged = false ∨
          (0 : ℚ) > 1000000 * (1 / 10))) ∧
      (∀ v, res = some v →
        v.severity = "HIGH" ∧ hist2 = [] ++ [v]) ∧
      (res = Option.none → hist2 = [])) :=
  ⟨by decide,
   C8_detect_violation DEFAULT_AXIOMS 1000000
     [("SOVEREIGNTY", "SOVEREIGNTY IS NON-NEGOTIABLE")] ("opA")
     { current_iteration := 3, convergence_value := 0, delta := 0,
       is_converged := true, fixed_point := some [0], trajectory := [] }
     [] (by decide) rfl⟩

/-- Dividing every list element divides the sum. -/
theorem list_sum_map_div (l : List ℝ) (c : ℝ) :
    (l.map (fun x => x / c)).sum = l.sum / c := by
  induction l with
  | nil => simp
  | cons a l ih => simp [ih, add_div]

/-- The temporal weights of a non-empty trajectory sum to one. -/
theorem compute_temporal_weights_sum (trajectory : List TrajectoryPoint)
    (h : trajectory ≠ []) : (compute_temporal_weights trajectory).sum = 1 := by
  match trajectory with
  | [_] => simp [compute_temporal_weights]
  | p0 :: p1 :: rest =>
      have hpos : ∀ w ∈ (p0 :: p1 :: rest).map
          (fun p => Real.exp (-(1 / 10) * (p.timestamp - p0.timestamp))), 0 < w := by
        intro w hw
        obtain ⟨p, _, hpw⟩ := List.mem_map.mp hw
        rw [← hpw]
        exact Real.exp_pos _
      have htot : 0 < ((p0 :: p1 :: rest).map
          (fun p => Real.exp (-(1 / 10) * (p.timestamp - p0.timestamp)))).sum :=
        List.sum_pos _ hpos (by simp)
      rw [compute_temporal_weights]
      rw [list_sum_map_div]
      exact div_self (ne_of_gt htot)

/-- Truncation/zero-padding always produces the lattice width. -/
theorem padCoords_length (D : Nat) (coords : List ℝ) :
    (padCoords D coords).length = D := by
  unfold padCoords
  split
  · rename_i hgt
    simp [List.length_take]
    omega
  · rename_i hle
    simp [List.length_append, List.length_replicate]
    omega

/-- The weighted accumulator has the lattice width. -/
theorem latticeAccum_length (D : Nat) (trajectory : List TrajectoryPoint) :
    (latticeAccum D trajectory).length = D := by
  unfold latticeAccum
  dsimp only
  generalize (List.zip trajectory (compute_temporal_weights trajectory)) = l
  have hstep : ∀ (l2 : List (TrajectoryPoint × ℝ)) (acc : List ℝ), acc.length = D →
      (l2.foldl (fun acc pw => vecAddR acc ((padCoords D pw.1.coordinates).map
        (fun a => pw.2 * a))) acc).length = D := by
    intro l2
    induction l2 with
    | nil => intro acc hacc; simpa using hacc
    | cons q l2 ih =>
        intro acc hacc
        apply ih
        simp [vecAddR, List.length_zipWith, hacc, padCoords_length]
  exact hstep l (List.replicate D 0) (by simp)

/-- Sums of squares are non-negative. -/
theorem sum_sq_nonneg (v : List ℝ) : 0 ≤ (v.map (fun a => a ^ 2)).sum := by
  apply List.sum_nonneg
  intro b hb
  obtain ⟨a, _, hab⟩ := List.mem_map.mp hb
  rw [← hab]
  exact sq_nonneg a

/-- Dividing a vector by its non-zero Euclidean norm normalises it to
unit length. -/
theorem l2norm_normalize (v : List ℝ) (hne : l2norm v ≠ 0) :
    l2norm (v.map (fun a => a / l2norm v)) = 1 := by
  have hpos : 0 < l2norm v := lt_of_le_of_ne (Real.sqrt_nonneg _) (Ne.symm hne)
  have hmap : (v.map (fun a => a / l2norm v)).map (fun a => a ^ 2) =
      (v.map (fun a => a ^ 2)).map (fun x => x / l2norm v ^ 2) := by
    rw [List.map_map, List.map_map]
    apply List.map_congr_left
    intro a _
    simp [div_pow]
  show Real.sqrt (((v.map (fun a => a / l2norm v)).map (fun a => a ^ 2)).sum) = 1
  rw [hmap, list_sum_map_div, Real.sqrt_div (sum_sq_nonneg v), Real.sqrt_sq hpos.le]
  exact div_self hne

/-- C7: trajectory projection.  The empty trajectory is rejected with
ValueError; for every non-empty trajectory the temporal weights sum to
one, the result has the lattice width, and it has unit Euclidean norm
unless the pre-normalisation accumulator has norm zero, in which case
the accumulator is returned unchanged. -/
theorem C7_process_trajectory (D : Nat) (trajectory : List TrajectoryPoint) :
    (process_trajectory D [] = .error ("ValueError: Trajectory cannot be empty")) ∧
    (trajectory ≠ [] →
      (compute_temporal_weights trajectory).sum = 1 ∧
      ∃ r, process_trajectory D trajectory = .ok r ∧
        r.length = D ∧
        (l2norm (latticeAccum D trajectory) ≠ 0 → l2norm r = 1) ∧
        (l2norm (latticeAccum D trajectory) = 0 → r = latticeAccum D trajectory)) := by
  constructor
  · rfl
  · intro h
    refine ⟨compute_temporal_weights_sum trajectory h, ?_⟩
    match trajectory with
    | p0 :: rest =>
        refine ⟨_, rfl, ?_, ?_, ?_⟩
        · by_cases hn : l2norm (latticeAccum D (p0 :: rest)) > 0
          · rw [if_pos hn]
            simp [latticeAccum_length]
          · rw [if_neg hn]
            exact latticeAccum_length D (p0 :: rest)
        · intro hne
          have hpos : 0 < l2norm (latticeAccum D (p0 :: rest)) :=
            lt_of_le_of_ne (Real.sqrt_nonneg _) (Ne.symm hne)
          rw [if_pos hpos]
          exact l2norm_normalize _ hne
        · intro h0
          rw [if_neg (by rw [h0]; exact lt_irrefl 0)]

/-- Witness for C7 at a single-point trajectory in a 2-wide lattice. -/
theorem C7_process_trajectory_witness :
    (([⟨[3, 4], 0, TrajectoryType.motor_sequence⟩] : List TrajectoryPoint) ≠ []) ∧
    ((compute_temporal_weights
        [⟨[3, 4], 0, TrajectoryType.motor_sequence⟩]).sum = 1 ∧
      ∃ r, process_trajectory 2 [⟨[3, 4], 0, TrajectoryType.motor_sequence⟩] = .ok r ∧
        r.length = 2 ∧
        (l2norm (latticeAccum 2 [⟨[3, 4], 0, TrajectoryType.motor_sequence⟩]) ≠ 0 →
          l2norm r = 1) ∧
        (l2norm (latticeAccum 2 [⟨[3, 4], 0, TrajectoryType.motor_sequence⟩]) = 0 →
          r = latticeAccum 2 [⟨[3, 4], 0, TrajectoryType.motor_sequence⟩])) :=
  ⟨by simp,
   (C7_process_trajectory 2 [⟨[3, 4], 0, TrajectoryType.motor_sequence⟩]).2 (by simp)⟩

end

end RaptorModel
